import Mathlib

/-!
# Verification of libgpiod line-config (src/lib/line-config.c)

A shallow embedding of the line-configuration module of libgpiod.
The C code is translated definition by definition:

* C `unsigned int` values are `Nat` reduced modulo `2 ^ 32` where overflow or
  byte-level access matters; C `int` values are `Int`; C `unsigned long`
  (LP64, the primary Linux target) is 64 bits wide; the kernel flag word
  (`uint64_t`) is a `Nat` kept below `2 ^ 64`.
* Fixed-size C arrays are Lean lists of the same length; reads use `getD`
  (reads past the initialised region of a C array return whatever the memory
  holds; a fresh `gpiod_line_config` is `memset` to zero, so the model
  initialises every array cell to zero).
* `errno`/`-1` returns are an explicit error type: `CErr.e2big` stands for
  "return -1 with errno = E2BIG", `CErr.einval` for "return -1 with
  errno = EINVAL".
* Functions that mutate their arguments through pointers return the updated
  values explicitly.

The buffer manipulated by `sanitize_offsets` is accessed by `memcpy`/`memmove`
with *byte* counts in the source, so those two operations are modelled at the
byte level over the 64-entry `unsigned int` buffer (4 bytes per entry,
little-endian, the layout of every supported target).  Accesses past the end
of that buffer are undefined behaviour in C; the model returns 0 for such
reads and drops such writes, and no theorem below depends on an input that
reaches them.
-/

namespace LibgpiodLineConfig

/-! ## Kernel uAPI constants (linux/gpio.h, fixed external protocol) -/

def GPIO_V2_LINES_MAX : Nat := 64

def GPIO_V2_LINE_NUM_ATTRS_MAX : Nat := 10

def GPIO_V2_LINE_FLAG_USED : Nat := 1

def GPIO_V2_LINE_FLAG_ACTIVE_LOW : Nat := 2

def GPIO_V2_LINE_FLAG_INPUT : Nat := 4

def GPIO_V2_LINE_FLAG_OUTPUT : Nat := 8

def GPIO_V2_LINE_FLAG_EDGE_RISING : Nat := 16

def GPIO_V2_LINE_FLAG_EDGE_FALLING : Nat := 32

def GPIO_V2_LINE_FLAG_OPEN_DRAIN : Nat := 64

def GPIO_V2_LINE_FLAG_OPEN_SOURCE : Nat := 128

def GPIO_V2_LINE_FLAG_BIAS_PULL_UP : Nat := 256

def GPIO_V2_LINE_FLAG_BIAS_PULL_DOWN : Nat := 512

def GPIO_V2_LINE_FLAG_BIAS_DISABLED : Nat := 1024

def GPIO_V2_LINE_FLAG_EVENT_CLOCK_REALTIME : Nat := 2048

def GPIO_V2_LINE_ATTR_ID_FLAGS : Nat := 1

def GPIO_V2_LINE_ATTR_ID_OUTPUT_VALUES : Nat := 2

def GPIO_V2_LINE_ATTR_ID_DEBOUNCE : Nat := 3

/-! ## libgpiod enum tags (include/gpiod.h) -/

def GPIOD_LINE_CONFIG_DIRECTION_AS_IS : Int := 1

def GPIOD_LINE_CONFIG_DIRECTION_INPUT : Int := 2

def GPIOD_LINE_CONFIG_DIRECTION_OUTPUT : Int := 3

def GPIOD_LINE_CONFIG_EDGE_NONE : Int := 1

def GPIOD_LINE_CONFIG_EDGE_FALLING : Int := 2

def GPIOD_LINE_CONFIG_EDGE_RISING : Int := 3

def GPIOD_LINE_CONFIG_EDGE_BOTH : Int := 4

def GPIOD_LINE_CONFIG_BIAS_AS_IS : Int := 1

def GPIOD_LINE_CONFIG_BIAS_DISABLED : Int := 2

def GPIOD_LINE_CONFIG_BIAS_PULL_UP : Int := 3

def GPIOD_LINE_CONFIG_BIAS_PULL_DOWN : Int := 4

def GPIOD_LINE_CONFIG_DRIVE_PUSH_PULL : Int := 1

def GPIOD_LINE_CONFIG_DRIVE_OPEN_DRAIN : Int := 2

def GPIOD_LINE_CONFIG_DRIVE_OPEN_SOURCE : Int := 3

def GPIOD_LINE_CONFIG_EVENT_CLOCK_MONOTONIC : Int := 1

def GPIOD_LINE_CONFIG_EVENT_CLOCK_REALTIME : Int := 2

/-! ## Data model (structs of src/lib/line-config.c) -/

/-- `struct base_config`: the full per-line option block. -/
structure base_config where
  direction : Int
  edge : Int
  drive : Int
  bias : Int
  active_low : Bool
  clock : Int
  debounce_period : Nat
deriving DecidableEq, Repr

/-- The zero-initialised `base_config` (fresh configs are `memset` to 0). -/
def base_config_zero : base_config :=
  { direction := 0, edge := 0, drive := 0, bias := 0, active_low := false,
    clock := 0, debounce_period := 0 }

/-- `struct secondary_config`: a `base_config` plus the offsets it targets.
The `offsets` list models the `unsigned int offsets[GPIO_V2_LINES_MAX]`
array (always 64 entries; entries past `num_offsets` are whatever the
memory holds). -/
structure secondary_config where
  config : base_config
  offsets : List Nat
  num_offsets : Nat
deriving DecidableEq, Repr

def secondary_config_zero : secondary_config :=
  { config := base_config_zero, offsets := List.replicate GPIO_V2_LINES_MAX 0,
    num_offsets := 0 }

/-- `struct output_value`. -/
structure output_value where
  offset : Nat
  value : Int
deriving DecidableEq, Repr

def output_value_zero : output_value := { offset := 0, value := 0 }

/-- `struct gpiod_line_config`.  The fixed-size arrays are lists of the
array length (10 secondaries, 64 output values, 64 sorted offsets). -/
structure gpiod_line_config where
  too_complex : Bool
  primary : base_config
  secondary : List secondary_config
  num_secondary : Nat
  output_values : List output_value
  num_output_values : Nat
  sorted_offsets : List Nat
  num_sorted_offsets : Nat
deriving DecidableEq, Repr

/-- `gpiod_line_config_new`: allocate and `memset` to zero. -/
def gpiod_line_config_new : gpiod_line_config :=
  { too_complex := false
    primary := base_config_zero
    secondary := List.replicate GPIO_V2_LINE_NUM_ATTRS_MAX secondary_config_zero
    num_secondary := 0
    output_values := List.replicate GPIO_V2_LINES_MAX output_value_zero
    num_output_values := 0
    sorted_offsets := List.replicate GPIO_V2_LINES_MAX 0
    num_sorted_offsets := 0 }

/-! ## Byte-level view of the `sorted_offsets` buffer

`sanitize_offsets` calls `memcpy(config->sorted_offsets, offsets, count)` and
`memmove(sorted + i + 1, sorted + i + 2, sizeof(*sorted) * num_offsets - i)`.
Both size arguments are *byte* counts (the first forgets the
`sizeof(*offsets)` factor, the second parenthesises it wrongly), so both
operations are modelled on the byte level: 4 bytes per `unsigned int`,
little-endian. -/

/-- Byte `j` of the buffer `b` of 4-byte little-endian unsigned ints. -/
def bufByte (b : List Nat) (j : Nat) : Nat :=
  b.getD (j / 4) 0 / 2 ^ (8 * (j % 4)) % 256

/-- Rebuild element `i` of a 64-entry buffer from a byte map. -/
def elemOfBytes (f : Nat → Nat) (i : Nat) : Nat :=
  f (4 * i) + 256 * f (4 * i + 1) + 65536 * f (4 * i + 2) +
    16777216 * f (4 * i + 3)

/-- `memcpy(dst, src, n)` over the 64-entry buffers `dst` and `src`,
`n` in bytes. -/
def memcpy_bytes (dst src : List Nat) (n : Nat) : List Nat :=
  (List.range GPIO_V2_LINES_MAX).map fun i =>
    elemOfBytes (fun j => if j < n then bufByte src j else bufByte dst j) i

/-- `memmove(b + byte dstOff, b + byte srcOff, n)` inside one 64-entry
buffer, `n` in bytes, `srcOff ≥ dstOff` (the overlap direction used by the
dedup loop). -/
def memmove_bytes (b : List Nat) (dstOff srcOff n : Nat) : List Nat :=
  (List.range GPIO_V2_LINES_MAX).map fun i =>
    elemOfBytes
      (fun j => if dstOff ≤ j ∧ j < dstOff + n then bufByte b (srcOff + j - dstOff)
                else bufByte b j) i

/-- `offset_compare`: the qsort comparator.  It returns `(int)(a - b)` where
the subtraction is done in `unsigned int` arithmetic and the result is
reinterpreted as a signed 32-bit int. -/
def offset_compare (a b : Nat) : Int :=
  let d : Nat := (a % 2 ^ 32 + 2 ^ 32 - b % 2 ^ 32) % 2 ^ 32
  if d < 2 ^ 31 then (d : Int) else (d : Int) - 2 ^ 32

/-- The order induced by `offset_compare` (`cmp a b ≤ 0`). -/
def offset_le (a b : Nat) : Bool := offset_compare a b ≤ 0

def insert_by_compare (a : Nat) : List Nat → List Nat
  | [] => [a]
  | b :: l => if offset_le a b then a :: b :: l else b :: insert_by_compare a l

def sort_by_compare : List Nat → List Nat
  | [] => []
  | a :: l => insert_by_compare a (sort_by_compare l)

/-- `qsort(sorted, count, sizeof(*sorted), offset_compare)`: sorts the first
`count` elements in the order of `offset_compare` and leaves the rest.
(C's qsort is unspecified when the comparator is inconsistent, which happens
only when two elements differ by `2 ^ 31` or more; an insertion sort by the
comparator's order agrees with qsort on all consistent inputs.) -/
def qsort_buf (b : List Nat) (count : Nat) : List Nat :=
  sort_by_compare (b.take count) ++ b.drop count

/-- The dedup loop of `sanitize_offsets`:
`for (i = 0; i < count - 1; i++) if (sorted[i] == sorted[i+1]) { ... }`.
`fuel` bounds the number of remaining iterations (the caller passes `count`,
which covers every `i < count - 1`); `nso` is `config->num_sorted_offsets`. -/
def dedup_go (num_offsets count : Nat) :
    Nat → Nat → List Nat → Nat → List Nat × Nat
  | 0, _, buf, nso => (buf, nso)
  | fuel + 1, i, buf, nso =>
    if i < count - 1 then
      if buf.getD i 0 == buf.getD (i + 1) 0 then
        let buf' := if i < count - 2 then
            memmove_bytes buf (4 * (i + 1)) (4 * (i + 2)) (4 * num_offsets - i)
          else buf
        dedup_go num_offsets count fuel (i + 1) buf' (nso - 1)
      else
        dedup_go num_offsets count fuel (i + 1) buf nso
    else (buf, nso)

/-- `sanitize_offsets`.  Note three faithful details: the function returns
without touching the config when `num_offsets` is 0 or 1; it sets
`num_sorted_offsets` to the *unclamped* `num_offsets`; and the `memcpy`
copies `count` **bytes** (not elements). -/
def sanitize_offsets (config : gpiod_line_config) (num_offsets : Nat)
    (offsets : List Nat) : gpiod_line_config :=
  if num_offsets = 0 ∨ num_offsets = 1 then config
  else
    let count := if num_offsets > GPIO_V2_LINES_MAX then GPIO_V2_LINES_MAX
      else num_offsets
    let buf0 := memcpy_bytes config.sorted_offsets offsets count
    let buf1 := qsort_buf buf0 count
    let r := dedup_go num_offsets count count 0 buf1 num_offsets
    { config with sorted_offsets := r.1, num_sorted_offsets := r.2 }

/-! ## Secondary lookup and allocation -/

/-- `find_matching_secondary_config`: the index of the first secondary whose
offset list (`num_offsets` entries compared by `memcmp`) equals the sorted
scratch list, if any. -/
def find_matching_secondary_config (config : gpiod_line_config) : Option Nat :=
  (List.range config.num_secondary).find? fun i =>
    let sec := config.secondary.getD i secondary_config_zero
    config.num_sorted_offsets == sec.num_offsets &&
      config.sorted_offsets.take config.num_sorted_offsets ==
        sec.offsets.take config.num_sorted_offsets

/-- `get_secondary_config`: returns the updated config and the index of the
secondary the caller must update (`none` models the C `NULL` return).  The
newly allocated secondary is `config->secondary[num_secondary++]`; the
source stores nothing into it here. -/
def get_secondary_config (config : gpiod_line_config) (num_offsets : Nat)
    (offsets : List Nat) : gpiod_line_config × Option Nat :=
  if config.too_complex then (config, none)
  else
    let c := sanitize_offsets config num_offsets offsets
    match find_matching_secondary_config c with
    | some i => (c, some i)
    | none =>
      if c.num_secondary = GPIO_V2_LINE_NUM_ATTRS_MAX then
        ({ c with too_complex := true }, none)
      else
        ({ c with num_secondary := c.num_secondary + 1 }, some c.num_secondary)

/-- Update the `base_config` of secondary `i` in place. -/
def update_secondary (c : gpiod_line_config) (i : Nat)
    (f : base_config → base_config) : gpiod_line_config :=
  { c with
    secondary := c.secondary.set i
      (let s := c.secondary.getD i secondary_config_zero
       { s with config := f s.config }) }

/-- Shared shape of all eight `gpiod_line_config_set_*_subset` setters. -/
def set_subset (config : gpiod_line_config) (num_offsets : Nat)
    (offsets : List Nat) (f : base_config → base_config) : gpiod_line_config :=
  match get_secondary_config config num_offsets offsets with
  | (c, none) => c
  | (c, some i) => update_secondary c i f

/-! ## Public setters -/

def gpiod_line_config_set_direction (config : gpiod_line_config)
    (direction : Int) : gpiod_line_config :=
  { config with primary := { config.primary with direction := direction } }

def gpiod_line_config_set_direction_subset (config : gpiod_line_config)
    (direction : Int) (num_offsets : Nat) (offsets : List Nat) :
    gpiod_line_config :=
  set_subset config num_offsets offsets fun b => { b with direction := direction }

def gpiod_line_config_set_direction_offset (config : gpiod_line_config)
    (direction : Int) (offset : Nat) : gpiod_line_config :=
  gpiod_line_config_set_direction_subset config direction 1 [offset]

def gpiod_line_config_set_edge_detection (config : gpiod_line_config)
    (edge : Int) : gpiod_line_config :=
  { config with primary := { config.primary with edge := edge } }

def gpiod_line_config_set_edge_detection_subset (config : gpiod_line_config)
    (edge : Int) (num_offsets : Nat) (offsets : List Nat) : gpiod_line_config :=
  set_subset config num_offsets offsets fun b => { b with edge := edge }

def gpiod_line_config_set_edge_detection_offset (config : gpiod_line_config)
    (edge : Int) (offset : Nat) : gpiod_line_config :=
  gpiod_line_config_set_edge_detection_subset config edge 1 [offset]

def gpiod_line_config_set_bias (config : gpiod_line_config)
    (bias : Int) : gpiod_line_config :=
  { config with primary := { config.primary with bias := bias } }

def gpiod_line_config_set_bias_subset (config : gpiod_line_config)
    (bias : Int) (num_offsets : Nat) (offsets : List Nat) : gpiod_line_config :=
  set_subset config num_offsets offsets fun b => { b with bias := bias }

def gpiod_line_config_set_bias_offset (config : gpiod_line_config)
    (bias : Int) (offset : Nat) : gpiod_line_config :=
  gpiod_line_config_set_bias_subset config bias 1 [offset]

def gpiod_line_config_set_drive (config : gpiod_line_config)
    (drive : Int) : gpiod_line_config :=
  { config with primary := { config.primary with drive := drive } }

def gpiod_line_config_set_drive_subset (config : gpiod_line_config)
    (drive : Int) (num_offsets : Nat) (offsets : List Nat) : gpiod_line_config :=
  set_subset config num_offsets offsets fun b => { b with drive := drive }

def gpiod_line_config_set_drive_offset (config : gpiod_line_config)
    (drive : Int) (offset : Nat) : gpiod_line_config :=
  gpiod_line_config_set_drive_subset config drive 1 [offset]

def gpiod_line_config_set_active_low (config : gpiod_line_config) :
    gpiod_line_config :=
  { config with primary := { config.primary with active_low := true } }

def gpiod_line_config_set_active_low_subset (config : gpiod_line_config)
    (num_offsets : Nat) (offsets : List Nat) : gpiod_line_config :=
  set_subset config num_offsets offsets fun b => { b with active_low := true }

def gpiod_line_config_set_active_low_offset (config : gpiod_line_config)
    (offset : Nat) : gpiod_line_config :=
  gpiod_line_config_set_active_low_subset config 1 [offset]

def gpiod_line_config_set_active_high (config : gpiod_line_config) :
    gpiod_line_config :=
  { config with primary := { config.primary with active_low := false } }

def gpiod_line_config_set_active_high_subset (config : gpiod_line_config)
    (num_offsets : Nat) (offsets : List Nat) : gpiod_line_config :=
  set_subset config num_offsets offsets fun b => { b with active_low := false }

def gpiod_line_config_set_active_high_offset (config : gpiod_line_config)
    (offset : Nat) : gpiod_line_config :=
  gpiod_line_config_set_active_high_subset config 1 [offset]

/-- `period` is a C `unsigned long`, 64 bits on the LP64 targets. -/
def gpiod_line_config_set_debounce_period (config : gpiod_line_config)
    (period : Nat) : gpiod_line_config :=
  { config with
    primary := { config.primary with debounce_period := period % 2 ^ 64 } }

def gpiod_line_config_set_debounce_period_subset (config : gpiod_line_config)
    (period : Nat) (num_offsets : Nat) (offsets : List Nat) :
    gpiod_line_config :=
  set_subset config num_offsets offsets
    fun b => { b with debounce_period := period % 2 ^ 64 }

def gpiod_line_config_set_debounce_period_offset (config : gpiod_line_config)
    (period : Nat) (offset : Nat) : gpiod_line_config :=
  gpiod_line_config_set_debounce_period_subset config period 1 [offset]

def gpiod_line_config_set_event_clock (config : gpiod_line_config)
    (clk : Int) : gpiod_line_config :=
  { config with primary := { config.primary with clock := clk } }

def gpiod_line_config_set_event_clock_subset (config : gpiod_line_config)
    (clk : Int) (num_offsets : Nat) (offsets : List Nat) : gpiod_line_config :=
  set_subset config num_offsets offsets fun b => { b with clock := clk }

def gpiod_line_config_set_event_clock_offset (config : gpiod_line_config)
    (clk : Int) (offset : Nat) : gpiod_line_config :=
  gpiod_line_config_set_event_clock_subset config clk 1 [offset]

/-! ## Output values -/

/-- `output_value_find_offset`: linear scan over the stored output values
(`-1` becomes `none`). -/
def output_value_find_offset (config : gpiod_line_config) (offset : Nat) :
    Option Nat :=
  (List.range config.num_output_values).find? fun i =>
    (config.output_values.getD i output_value_zero).offset == offset

/-- The static helper `set_output_value`. -/
def set_output_value (config : gpiod_line_config) (idx : Nat) (offset : Nat)
    (value : Int) (inc : Bool) : gpiod_line_config :=
  { config with
    output_values := config.output_values.set idx { offset := offset, value := value }
    num_output_values := if inc then config.num_output_values + 1
      else config.num_output_values }

/-- The loop body of `gpiod_line_config_set_output_values`, over the
remaining `(offset, value)` pairs.  The early `return` on a full table sets
`too_complex` and drops the remaining pairs. -/
def set_output_values_go (config : gpiod_line_config) :
    List (Nat × Int) → gpiod_line_config
  | [] => config
  | (off, v) :: rest =>
    match output_value_find_offset config off with
    | none =>
      if config.num_output_values = GPIO_V2_LINES_MAX then
        { config with too_complex := true }
      else
        set_output_values_go
          (set_output_value config config.num_output_values off v true) rest
    | some pos =>
      set_output_values_go (set_output_value config pos off v false) rest

def gpiod_line_config_set_output_values (config : gpiod_line_config)
    (num_values : Nat) (offsets : List Nat) (values : List Int) :
    gpiod_line_config :=
  if config.too_complex then config
  else set_output_values_go config
    (List.zip (offsets.take num_values) (values.take num_values))

def gpiod_line_config_set_output_value (config : gpiod_line_config)
    (offset : Nat) (value : Int) : gpiod_line_config :=
  gpiod_line_config_set_output_values config 1 [offset] [value]

/-! ## Kernel flag translation (`gpiod_make_kernel_flags`)

Each C `switch` becomes one helper; `goto err_inval` becomes `none`
(return -1 with errno = EINVAL). -/

/-- `~GPIOD_LINE_CONFIG_DIRECTION_OUTPUT` over the 64-bit flag word: the
source masks with the complement of the *enum value* 3, which keeps every
bit except bits 0 and 1. -/
def not_direction_output_mask : Nat := 2 ^ 64 - 1 - 3

def kernel_flags_direction (flags : Nat) (d : Int) : Option Nat :=
  if d = GPIOD_LINE_CONFIG_DIRECTION_INPUT then
    some (flags ||| GPIO_V2_LINE_FLAG_INPUT)
  else if d = GPIOD_LINE_CONFIG_DIRECTION_OUTPUT then
    some (flags ||| GPIO_V2_LINE_FLAG_OUTPUT)
  else if d = GPIOD_LINE_CONFIG_DIRECTION_AS_IS ∨ d = 0 then some flags
  else none

def kernel_flags_edge (flags : Nat) (e : Int) : Option Nat :=
  if e = GPIOD_LINE_CONFIG_EDGE_FALLING then
    some ((flags ||| (GPIO_V2_LINE_FLAG_EDGE_FALLING ||| GPIO_V2_LINE_FLAG_INPUT))
      &&& not_direction_output_mask)
  else if e = GPIOD_LINE_CONFIG_EDGE_RISING then
    some ((flags ||| (GPIO_V2_LINE_FLAG_EDGE_RISING ||| GPIO_V2_LINE_FLAG_INPUT))
      &&& not_direction_output_mask)
  else if e = GPIOD_LINE_CONFIG_EDGE_BOTH then
    some ((flags ||| (GPIO_V2_LINE_FLAG_EDGE_FALLING |||
        GPIO_V2_LINE_FLAG_EDGE_RISING ||| GPIO_V2_LINE_FLAG_INPUT))
      &&& not_direction_output_mask)
  else if e = GPIOD_LINE_CONFIG_EDGE_NONE ∨ e = 0 then some flags
  else none

def kernel_flags_drive (flags : Nat) (d : Int) : Option Nat :=
  if d = GPIOD_LINE_CONFIG_DRIVE_OPEN_DRAIN then
    some (flags ||| GPIO_V2_LINE_FLAG_OPEN_DRAIN)
  else if d = GPIOD_LINE_CONFIG_DRIVE_OPEN_SOURCE then
    some (flags ||| GPIO_V2_LINE_FLAG_OPEN_SOURCE)
  else if d = GPIOD_LINE_CONFIG_DRIVE_PUSH_PULL ∨ d = 0 then some flags
  else none

def kernel_flags_bias (flags : Nat) (b : Int) : Option Nat :=
  if b = GPIOD_LINE_CONFIG_BIAS_DISABLED then
    some (flags ||| GPIO_V2_LINE_FLAG_BIAS_DISABLED)
  else if b = GPIOD_LINE_CONFIG_BIAS_PULL_UP then
    some (flags ||| GPIO_V2_LINE_FLAG_BIAS_PULL_UP)
  else if b = GPIOD_LINE_CONFIG_BIAS_PULL_DOWN then
    some (flags ||| GPIO_V2_LINE_FLAG_BIAS_PULL_DOWN)
  else if b = GPIOD_LINE_CONFIG_BIAS_AS_IS ∨ b = 0 then some flags
  else none

def kernel_flags_clock (flags : Nat) (c : Int) : Option Nat :=
  if c = GPIOD_LINE_CONFIG_EVENT_CLOCK_REALTIME then
    some (flags ||| GPIO_V2_LINE_FLAG_EVENT_CLOCK_REALTIME)
  else if c = GPIOD_LINE_CONFIG_EVENT_CLOCK_MONOTONIC ∨ c = 0 then some flags
  else none

/-- `gpiod_make_kernel_flags`: `none` models `return -1` with
`errno = EINVAL`; `some flags` models `return 0` with `*flags` written. -/
def gpiod_make_kernel_flags (c : base_config) : Option Nat :=
  (kernel_flags_direction 0 c.direction).bind fun f1 =>
  (kernel_flags_edge f1 c.edge).bind fun f2 =>
  (kernel_flags_drive f2 c.drive).bind fun f3 =>
  (kernel_flags_bias f3 c.bias).bind fun f4 =>
  kernel_flags_clock
    (if c.active_low then f4 ||| GPIO_V2_LINE_FLAG_ACTIVE_LOW else f4) c.clock

/-! ## Line-mask primitives

Modelled from the spec: `gpiod_line_mask_zero`, `gpiod_line_mask_fill`,
`gpiod_line_mask_set_bit` and `gpiod_line_mask_assign_bit` live in
`lib/internal.h`, which is not under `src/`.  Spec §4.1: "A line-mask is a
64-bit word.  Operations: zero, fill, set bit i, clear bit i, assign bit i
to boolean, test bit i."  `fill` at its only call site takes no length
argument, so it fills the whole 64-bit word. -/

def gpiod_line_mask_zero : Nat := 0

def gpiod_line_mask_fill : Nat := 2 ^ 64 - 1

def gpiod_line_mask_set_bit (mask i : Nat) : Nat := mask ||| 2 ^ i

/-- Assign bit `i` of `mask` to `b` (`~(1 << i)` over the 64-bit word is
`(2 ^ 64 - 1) ^^^ 2 ^ i`). -/
def gpiod_line_mask_assign_bit (mask i : Nat) (b : Bool) : Nat :=
  if b then mask ||| 2 ^ i else mask &&& (gpiod_line_mask_fill ^^^ 2 ^ i)

/-! ## Compilation to the kernel structure -/

/-- `find_bitmap_index`: the index of `needle` in the first `num_lines`
entries of `haystack`, if any (`-1` becomes `none`). -/
def find_bitmap_index (needle num_lines : Nat) (haystack : List Nat) :
    Option Nat :=
  (List.range num_lines).find? fun i => needle == haystack.getD i 0

/-- The loop of `set_kernel_output_values`, over the remaining stored
output values; accumulates `mask` and `vals`. -/
def set_kernel_output_values_go (num_lines : Nat) (offsets : List Nat) :
    Nat → Nat → List output_value → Option (Nat × Nat)
  | mask, vals, [] => some (mask, vals)
  | mask, vals, ov :: rest =>
    match find_bitmap_index ov.offset num_lines offsets with
    | none => none
    | some idx =>
      set_kernel_output_values_go num_lines offsets
        (gpiod_line_mask_set_bit mask idx)
        (gpiod_line_mask_assign_bit vals idx (ov.value != 0)) rest

/-- `set_kernel_output_values`: `none` models `return -1` with
`errno = EINVAL`; `some (mask, vals)` the two output bitmaps. -/
def set_kernel_output_values (config : gpiod_line_config)
    (num_lines : Nat) (offsets : List Nat) : Option (Nat × Nat) :=
  set_kernel_output_values_go num_lines offsets gpiod_line_mask_zero
    gpiod_line_mask_zero (config.output_values.take config.num_output_values)

def set_secondary_mask_go (num_lines : Nat) (offsets : List Nat) :
    Nat → List Nat → Option Nat
  | mask, [] => some mask
  | mask, o :: rest =>
    match find_bitmap_index o num_lines offsets with
    | none => none
    | some idx =>
      set_secondary_mask_go num_lines offsets
        (gpiod_line_mask_set_bit mask idx) rest

/-- `set_secondary_mask`. -/
def set_secondary_mask (sec_cfg : secondary_config) (num_lines : Nat)
    (offsets : List Nat) : Option Nat :=
  set_secondary_mask_go num_lines offsets gpiod_line_mask_zero
    (sec_cfg.offsets.take sec_cfg.num_offsets)

/-- `struct gpio_v2_line_config_attribute` (kernel uAPI).  `value` is the
64-bit union `{ flags; values; debounce_period_us }`; `debounce_period_us`
is its low 32 bits (little-endian). -/
structure gpio_v2_line_config_attribute where
  id : Nat
  value : Nat
  mask : Nat
deriving DecidableEq, Repr

def attr_zero : gpio_v2_line_config_attribute := { id := 0, value := 0, mask := 0 }

/-- `struct gpio_v2_line_config` (kernel uAPI): the flag word, `num_attrs`
and the 10-entry attribute array. -/
structure gpio_v2_line_config where
  flags : Nat
  num_attrs : Nat
  attrs : List gpio_v2_line_config_attribute
deriving DecidableEq, Repr

/-- A zeroed kernel config buffer. -/
def cfgbuf_zero : gpio_v2_line_config :=
  { flags := 0, num_attrs := 0,
    attrs := List.replicate GPIO_V2_LINE_NUM_ATTRS_MAX attr_zero }

/-- Update attribute `idx` of the kernel buffer in place. -/
def set_attr (cb : gpio_v2_line_config) (idx : Nat)
    (f : gpio_v2_line_config_attribute → gpio_v2_line_config_attribute) :
    gpio_v2_line_config :=
  { cb with attrs := cb.attrs.set idx (f (cb.attrs.getD idx attr_zero)) }

/-- Storing a `__u32` into the low half of the 64-bit attribute union
(little-endian); the high bytes keep their previous contents. -/
def attr_store32 (old v : Nat) : Nat := v % 2 ^ 32 + old / 2 ^ 32 * 2 ^ 32

/-- `-1`-with-`errno` results of `gpiod_line_config_to_kernel`. -/
inductive CErr where
  | e2big
  | einval
deriving DecidableEq, Repr

instance : DecidableEq (Except CErr Unit) := fun a b =>
  match a, b with
  | .ok (), .ok () => isTrue rfl
  | .error x, .error y =>
    if h : x = y then isTrue (by rw [h]) else isFalse (by simp [h])
  | .ok _, .error _ => isFalse (by simp)
  | .error _, .ok _ => isFalse (by simp)

/-- The secondary loop of `gpiod_line_config_to_kernel`: processes the
remaining secondaries starting at attribute slot `attr_idx`.  Returns the
(partially) written buffer together with either the first error or the
final `attr_idx`.  Mirrors the statement order of the source: the `id`
field (and for flags attributes the translated flags) is written before a
possible error return, the mask last. -/
def to_kernel_secondaries (num_lines : Nat) (offsets : List Nat) :
    List secondary_config → Nat → gpio_v2_line_config →
    gpio_v2_line_config × Except CErr Nat
  | [], attr_idx, cb => (cb, .ok attr_idx)
  | sec_cfg :: rest, attr_idx, cb =>
    if attr_idx = GPIO_V2_LINE_NUM_ATTRS_MAX then (cb, .error .e2big)
    else if sec_cfg.num_offsets > num_lines then (cb, .error .e2big)
    else if sec_cfg.config.debounce_period ≠ 0 then
      -- debounce attribute: id and period written, then the mask
      match set_secondary_mask sec_cfg num_lines offsets with
      | none =>
        (set_attr cb attr_idx fun a =>
          { a with id := GPIO_V2_LINE_ATTR_ID_DEBOUNCE,
                   value := attr_store32 a.value sec_cfg.config.debounce_period },
         .error .einval)
      | some mask =>
        to_kernel_secondaries num_lines offsets rest (attr_idx + 1)
          (set_attr
            (set_attr cb attr_idx fun a =>
              { a with id := GPIO_V2_LINE_ATTR_ID_DEBOUNCE,
                       value := attr_store32 a.value sec_cfg.config.debounce_period })
            attr_idx fun a => { a with mask := mask })
    else
      -- flags attribute: id written first, then the translated flags, then
      -- the mask; an EINVAL return leaves the partially written attribute
      match gpiod_make_kernel_flags sec_cfg.config with
      | none =>
        (set_attr cb attr_idx fun a => { a with id := GPIO_V2_LINE_ATTR_ID_FLAGS },
         .error .einval)
      | some flags =>
        match set_secondary_mask sec_cfg num_lines offsets with
        | none =>
          (set_attr
            (set_attr cb attr_idx
              fun a => { a with id := GPIO_V2_LINE_ATTR_ID_FLAGS })
            attr_idx fun a => { a with value := flags },
           .error .einval)
        | some mask =>
          to_kernel_secondaries num_lines offsets rest (attr_idx + 1)
            (set_attr
              (set_attr
                (set_attr cb attr_idx
                  fun a => { a with id := GPIO_V2_LINE_ATTR_ID_FLAGS })
                attr_idx fun a => { a with value := flags })
              attr_idx fun a => { a with mask := mask })

/-- The output-values section of `gpiod_line_config_to_kernel`
(`if (config->num_output_values) { ... }`): returns the buffer as written
so far and either the first error or the next `attr_idx`. -/
def to_kernel_output_stage (config : gpiod_line_config)
    (cfgbuf : gpio_v2_line_config) (num_lines : Nat) (offsets : List Nat) :
    gpio_v2_line_config × Except CErr Nat :=
  if config.num_output_values ≠ 0 then
    if config.num_output_values > num_lines then (cfgbuf, .error .e2big)
    else
      let cb1 := set_attr cfgbuf 0
        fun a => { a with id := GPIO_V2_LINE_ATTR_ID_OUTPUT_VALUES }
      match set_kernel_output_values config num_lines offsets with
      | none => (cb1, .error .einval)
      | some mv =>
        (set_attr cb1 0 fun a => { a with value := mv.2, mask := mv.1 }, .ok 1)
  else (cfgbuf, .ok 0)

/-- The primary-debounce section of `gpiod_line_config_to_kernel`
(`if (config->primary.debounce_period) { ... }`). -/
def to_kernel_debounce_stage (config : gpiod_line_config)
    (cfgbuf : gpio_v2_line_config) (attr_idx : Nat) :
    gpio_v2_line_config × Nat :=
  if config.primary.debounce_period ≠ 0 then
    (set_attr cfgbuf attr_idx fun a =>
      { a with id := GPIO_V2_LINE_ATTR_ID_DEBOUNCE,
               value := attr_store32 a.value config.primary.debounce_period,
               mask := gpiod_line_mask_fill },
     attr_idx + 1)
  else (cfgbuf, attr_idx)

/-- Error return of `gpiod_line_config_to_kernel`: the `err_2big` label
sets `config->too_complex` before returning; an EINVAL return leaves the
config as it was. -/
def to_kernel_error (e : CErr) (cb : gpio_v2_line_config)
    (config : gpiod_line_config) :
    Except CErr Unit × gpio_v2_line_config × gpiod_line_config :=
  match e with
  | .e2big => (.error .e2big, cb, { config with too_complex := true })
  | .einval => (.error .einval, cb, config)

/-- `gpiod_line_config_to_kernel` for a non-NULL config.  Returns the
result (`.ok ()` is `return 0`), the written kernel buffer and the config
after the call (`goto err_2big` sets `config->too_complex`). -/
def gpiod_line_config_to_kernel_some (config : gpiod_line_config)
    (cfgbuf : gpio_v2_line_config) (num_lines : Nat) (offsets : List Nat) :
    Except CErr Unit × gpio_v2_line_config × gpiod_line_config :=
  if config.too_complex then
    (.error .e2big, cfgbuf, { config with too_complex := true })
  else
    match (to_kernel_output_stage config cfgbuf num_lines offsets).2 with
    | .error e =>
      to_kernel_error e (to_kernel_output_stage config cfgbuf num_lines offsets).1
        config
    | .ok idx1 =>
      match (to_kernel_secondaries num_lines offsets
          (config.secondary.take config.num_secondary)
          (to_kernel_debounce_stage config
            (to_kernel_output_stage config cfgbuf num_lines offsets).1 idx1).2
          (to_kernel_debounce_stage config
            (to_kernel_output_stage config cfgbuf num_lines offsets).1 idx1).1).2 with
      | .error e =>
        to_kernel_error e
          (to_kernel_secondaries num_lines offsets
            (config.secondary.take config.num_secondary)
            (to_kernel_debounce_stage config
              (to_kernel_output_stage config cfgbuf num_lines offsets).1 idx1).2
            (to_kernel_debounce_stage config
              (to_kernel_output_stage config cfgbuf num_lines offsets).1 idx1).1).1
          config
      | .ok attr_idx =>
        -- primary flags
        match gpiod_make_kernel_flags config.primary with
        | none =>
          (.error .einval,
           (to_kernel_secondaries num_lines offsets
             (config.secondary.take config.num_secondary)
             (to_kernel_debounce_stage config
               (to_kernel_output_stage config cfgbuf num_lines offsets).1 idx1).2
             (to_kernel_debounce_stage config
               (to_kernel_output_stage config cfgbuf num_lines offsets).1 idx1).1).1,
           config)
        | some flags =>
          (.ok (),
           { (to_kernel_secondaries num_lines offsets
               (config.secondary.take config.num_secondary)
               (to_kernel_debounce_stage config
                 (to_kernel_output_stage config cfgbuf num_lines offsets).1 idx1).2
               (to_kernel_debounce_stage config
                 (to_kernel_output_stage config cfgbuf num_lines offsets).1 idx1).1).1
             with flags := flags, num_attrs := attr_idx },
           config)

/-- `gpiod_line_config_to_kernel`, NULL config included: a NULL config just
sets `cfgbuf->flags = GPIO_V2_LINE_FLAG_INPUT` and returns 0. -/
def gpiod_line_config_to_kernel (config : Option gpiod_line_config)
    (cfgbuf : gpio_v2_line_config) (num_lines : Nat) (offsets : List Nat) :
    Except CErr Unit × gpio_v2_line_config × Option gpiod_line_config :=
  match config with
  | none => (.ok (), { cfgbuf with flags := GPIO_V2_LINE_FLAG_INPUT }, none)
  | some c =>
    let r := gpiod_line_config_to_kernel_some c cfgbuf num_lines offsets
    (r.1, r.2.1, some r.2.2)

/-! ## The public mutating surface as one operation type

`ConfigOp` enumerates the public setter calls of the module, one
constructor per C function; `applyOp` runs the embedded function.
`isGuarded` marks the ops whose C implementation checks `too_complex`
before mutating (the subset/offset setters through `get_secondary_config`
and the output-value setters); the global primary setters are unguarded. -/

inductive ConfigOp where
  | direction (d : Int)
  | directionOffset (d : Int) (o : Nat)
  | directionSubset (d : Int) (n : Nat) (offs : List Nat)
  | edge (e : Int)
  | edgeOffset (e : Int) (o : Nat)
  | edgeSubset (e : Int) (n : Nat) (offs : List Nat)
  | bias (b : Int)
  | biasOffset (b : Int) (o : Nat)
  | biasSubset (b : Int) (n : Nat) (offs : List Nat)
  | drive (d : Int)
  | driveOffset (d : Int) (o : Nat)
  | driveSubset (d : Int) (n : Nat) (offs : List Nat)
  | activeLow
  | activeLowOffset (o : Nat)
  | activeLowSubset (n : Nat) (offs : List Nat)
  | activeHigh
  | activeHighOffset (o : Nat)
  | activeHighSubset (n : Nat) (offs : List Nat)
  | debounce (p : Nat)
  | debounceOffset (p : Nat) (o : Nat)
  | debounceSubset (p : Nat) (n : Nat) (offs : List Nat)
  | eventClock (c : Int)
  | eventClockOffset (c : Int) (o : Nat)
  | eventClockSubset (c : Int) (n : Nat) (offs : List Nat)
  | outputValue (o : Nat) (v : Int)
  | outputValues (n : Nat) (offs : List Nat) (vals : List Int)
deriving DecidableEq, Repr

def applyOp (op : ConfigOp) (c : gpiod_line_config) : gpiod_line_config :=
  match op with
  | .direction d => gpiod_line_config_set_direction c d
  | .directionOffset d o => gpiod_line_config_set_direction_offset c d o
  | .directionSubset d n offs => gpiod_line_config_set_direction_subset c d n offs
  | .edge e => gpiod_line_config_set_edge_detection c e
  | .edgeOffset e o => gpiod_line_config_set_edge_detection_offset c e o
  | .edgeSubset e n offs => gpiod_line_config_set_edge_detection_subset c e n offs
  | .bias b => gpiod_line_config_set_bias c b
  | .biasOffset b o => gpiod_line_config_set_bias_offset c b o
  | .biasSubset b n offs => gpiod_line_config_set_bias_subset c b n offs
  | .drive d => gpiod_line_config_set_drive c d
  | .driveOffset d o => gpiod_line_config_set_drive_offset c d o
  | .driveSubset d n offs => gpiod_line_config_set_drive_subset c d n offs
  | .activeLow => gpiod_line_config_set_active_low c
  | .activeLowOffset o => gpiod_line_config_set_active_low_offset c o
  | .activeLowSubset n offs => gpiod_line_config_set_active_low_subset c n offs
  | .activeHigh => gpiod_line_config_set_active_high c
  | .activeHighOffset o => gpiod_line_config_set_active_high_offset c o
  | .activeHighSubset n offs => gpiod_line_config_set_active_high_subset c n offs
  | .debounce p => gpiod_line_config_set_debounce_period c p
  | .debounceOffset p o => gpiod_line_config_set_debounce_period_offset c p o
  | .debounceSubset p n offs => gpiod_line_config_set_debounce_period_subset c p n offs
  | .eventClock k => gpiod_line_config_set_event_clock c k
  | .eventClockOffset k o => gpiod_line_config_set_event_clock_offset c k o
  | .eventClockSubset k n offs => gpiod_line_config_set_event_clock_subset c k n offs
  | .outputValue o v => gpiod_line_config_set_output_value c o v
  | .outputValues n offs vals => gpiod_line_config_set_output_values c n offs vals

/-- The ops whose implementation is guarded by a `too_complex` check. -/
def isGuarded : ConfigOp → Bool
  | .direction _ | .edge _ | .bias _ | .drive _ | .activeLow | .activeHigh
  | .debounce _ | .eventClock _ => false
  | _ => true

/-! ## Validity predicates, slot accounting and concrete configurations
used by the theorems below -/

/-- The direction values the translation recognizes (0 = unset). -/
def direction_recognized (d : Int) : Prop :=
  d = 0 ∨ d = GPIOD_LINE_CONFIG_DIRECTION_AS_IS ∨
    d = GPIOD_LINE_CONFIG_DIRECTION_INPUT ∨
    d = GPIOD_LINE_CONFIG_DIRECTION_OUTPUT

def edge_recognized (e : Int) : Prop :=
  e = 0 ∨ e = GPIOD_LINE_CONFIG_EDGE_NONE ∨ e = GPIOD_LINE_CONFIG_EDGE_FALLING ∨
    e = GPIOD_LINE_CONFIG_EDGE_RISING ∨ e = GPIOD_LINE_CONFIG_EDGE_BOTH

def drive_recognized (d : Int) : Prop :=
  d = 0 ∨ d = GPIOD_LINE_CONFIG_DRIVE_PUSH_PULL ∨
    d = GPIOD_LINE_CONFIG_DRIVE_OPEN_DRAIN ∨
    d = GPIOD_LINE_CONFIG_DRIVE_OPEN_SOURCE

def bias_recognized (b : Int) : Prop :=
  b = 0 ∨ b = GPIOD_LINE_CONFIG_BIAS_AS_IS ∨ b = GPIOD_LINE_CONFIG_BIAS_DISABLED ∨
    b = GPIOD_LINE_CONFIG_BIAS_PULL_UP ∨ b = GPIOD_LINE_CONFIG_BIAS_PULL_DOWN

def clock_recognized (c : Int) : Prop :=
  c = 0 ∨ c = GPIOD_LINE_CONFIG_EVENT_CLOCK_MONOTONIC ∨
    c = GPIOD_LINE_CONFIG_EVENT_CLOCK_REALTIME

/-- The number of kernel attribute slots the stored configuration needs:
one for the output values (if any), one for a primary debounce, one per
secondary. -/
def attrs_needed (c : gpiod_line_config) : Nat :=
  (if c.num_output_values ≠ 0 then 1 else 0) +
    (if c.primary.debounce_period ≠ 0 then 1 else 0) + c.num_secondary

/-- A config holding ten secondaries (each subset call allocates a fresh
one, see C2) and one output value at offset 3. -/
def c4_base : gpiod_line_config :=
  (List.range 10).foldl
    (fun c _ => gpiod_line_config_set_direction_subset c
      GPIOD_LINE_CONFIG_DIRECTION_INPUT 2 [0, 1])
    gpiod_line_config_new

def c4_config : gpiod_line_config :=
  gpiod_line_config_set_output_value c4_base 3 1

/-- A secondary carrying the debounce period `2 ^ 32` (and nothing else). -/
def c9_config : gpiod_line_config :=
  gpiod_line_config_set_debounce_period_subset gpiod_line_config_new
    (2 ^ 32) 2 [0, 1]

/-- A secondary with debounce period 100. -/
def c9_witness_config : gpiod_line_config :=
  gpiod_line_config_set_debounce_period_subset gpiod_line_config_new
    100 2 [0, 1]

/-- Two output values, one of them at an offset outside the request. -/
def c5_config : gpiod_line_config :=
  gpiod_line_config_set_output_values gpiod_line_config_new 2 [0, 5] [1, 1]

/-- One output value: offset 7 set to 1. -/
def c5_witness_config : gpiod_line_config :=
  gpiod_line_config_set_output_value gpiod_line_config_new 7 1

/-! ## Shared lemmas -/

lemma get_secondary_config_too_complex (config : gpiod_line_config)
    (num_offsets : Nat) (offsets : List Nat) (h : config.too_complex = true) :
    get_secondary_config config num_offsets offsets = (config, none) := by
  simp [get_secondary_config, h]

lemma set_subset_too_complex (config : gpiod_line_config) (num_offsets : Nat)
    (offsets : List Nat) (f : base_config → base_config)
    (h : config.too_complex = true) :
    set_subset config num_offsets offsets f = config := by
  simp [set_subset, get_secondary_config_too_complex config num_offsets offsets h]

lemma set_output_values_too_complex (config : gpiod_line_config)
    (num_values : Nat) (offsets : List Nat) (values : List Int)
    (h : config.too_complex = true) :
    gpiod_line_config_set_output_values config num_values offsets values = config := by
  simp [gpiod_line_config_set_output_values, h]

/-- A guarded op on a `too_complex` config is the identity. -/
lemma guarded_op_too_complex (op : ConfigOp) (config : gpiod_line_config)
    (h : config.too_complex = true) (hg : isGuarded op = true) :
    applyOp op config = config := by
  cases op <;>
    simp_all [applyOp, isGuarded,
      gpiod_line_config_set_direction_offset,
      gpiod_line_config_set_direction_subset,
      gpiod_line_config_set_edge_detection_offset,
      gpiod_line_config_set_edge_detection_subset,
      gpiod_line_config_set_bias_offset, gpiod_line_config_set_bias_subset,
      gpiod_line_config_set_drive_offset, gpiod_line_config_set_drive_subset,
      gpiod_line_config_set_active_low_offset,
      gpiod_line_config_set_active_low_subset,
      gpiod_line_config_set_active_high_offset,
      gpiod_line_config_set_active_high_subset,
      gpiod_line_config_set_debounce_period_offset,
      gpiod_line_config_set_debounce_period_subset,
      gpiod_line_config_set_event_clock_offset,
      gpiod_line_config_set_event_clock_subset,
      gpiod_line_config_set_output_value,
      set_subset_too_complex, set_output_values_too_complex, h]

/-- No setter ever changes `too_complex` from `true` back to `false`. -/
lemma too_complex_sticky (op : ConfigOp) (config : gpiod_line_config)
    (h : config.too_complex = true) : (applyOp op config).too_complex = true := by
  by_cases hg : isGuarded op = true
  · rw [guarded_op_too_complex op config h hg]; exact h
  · cases op <;> simp_all [applyOp, isGuarded,
      gpiod_line_config_set_direction, gpiod_line_config_set_edge_detection,
      gpiod_line_config_set_bias, gpiod_line_config_set_drive,
      gpiod_line_config_set_active_low, gpiod_line_config_set_active_high,
      gpiod_line_config_set_debounce_period, gpiod_line_config_set_event_clock]

/-! ## Claim C10 -/

/-- Claim C10: calling `gpiod_line_config_to_kernel` with a NULL config
succeeds for every offset list: it returns 0, sets the kernel config's
`flags` field to `GPIO_V2_LINE_FLAG_INPUT`, and writes neither the
attribute array nor `num_attrs`. -/
theorem C10_null_config (cfgbuf : gpio_v2_line_config) (num_lines : Nat)
    (offsets : List Nat) :
    (gpiod_line_config_to_kernel none cfgbuf num_lines offsets).1 = .ok () ∧
    (gpiod_line_config_to_kernel none cfgbuf num_lines offsets).2.1.flags =
      GPIO_V2_LINE_FLAG_INPUT ∧
    (gpiod_line_config_to_kernel none cfgbuf num_lines offsets).2.1.attrs =
      cfgbuf.attrs ∧
    (gpiod_line_config_to_kernel none cfgbuf num_lines offsets).2.1.num_attrs =
      cfgbuf.num_attrs ∧
    (gpiod_line_config_to_kernel none cfgbuf num_lines offsets).2.2 = none := by
  refine ⟨rfl, rfl, rfl, rfl, rfl⟩

/-! ## Claim C3 (code bug)

`gpiod_make_kernel_flags` is supposed to clear the output-direction flag
when edge detection is enabled, but the source masks with
`~GPIOD_LINE_CONFIG_DIRECTION_OUTPUT` (the complement of the *enum value*
3) instead of `~GPIO_V2_LINE_FLAG_OUTPUT` (the complement of flag bit 3),
so a config with direction = output and edge ≠ none keeps the OUTPUT flag. -/

/-- Claim C3, evaluated at the failing input: for direction = output and
edge = rising the compiled flag word is `INPUT ||| OUTPUT ||| EDGE_RISING`
= 28 — the input flag is set but the output flag is *not* cleared. -/
theorem C3_edge_output_not_cleared :
    gpiod_make_kernel_flags
      { base_config_zero with
        direction := GPIOD_LINE_CONFIG_DIRECTION_OUTPUT,
        edge := GPIOD_LINE_CONFIG_EDGE_RISING } =
      some (GPIO_V2_LINE_FLAG_INPUT ||| GPIO_V2_LINE_FLAG_OUTPUT |||
        GPIO_V2_LINE_FLAG_EDGE_RISING) ∧
    (GPIO_V2_LINE_FLAG_INPUT ||| GPIO_V2_LINE_FLAG_OUTPUT |||
        GPIO_V2_LINE_FLAG_EDGE_RISING) &&& GPIO_V2_LINE_FLAG_OUTPUT ≠ 0 := by
  constructor
  · rfl
  · decide

/-! ## Claim C1 (code bug)

`get_secondary_config` never copies the sanitized offsets into a newly
allocated secondary (`secondary = &config->secondary[config->num_secondary++];`
is not followed by any store of `sorted_offsets`), so the secondary that
ends up holding a subset option keeps an empty offset list instead of
`sort(dedup(A[:64]))`.  Independently, `sanitize_offsets` copies
`count` *bytes* instead of `count` elements. -/

/-- Claim C1, evaluated at the failing input A = [3, 5] on a fresh config:
the option lands in secondary 0, but that secondary's offset list is empty
(`num_offsets = 0`), not the claimed `sort(dedup([3, 5])) = [3, 5]`. -/
theorem C1_secondary_not_seeded :
    (gpiod_line_config_set_direction_subset gpiod_line_config_new
        GPIOD_LINE_CONFIG_DIRECTION_INPUT 2 [3, 5]).num_secondary = 1 ∧
    ((gpiod_line_config_set_direction_subset gpiod_line_config_new
        GPIOD_LINE_CONFIG_DIRECTION_INPUT 2 [3, 5]).secondary.getD 0
        secondary_config_zero).config.direction =
      GPIOD_LINE_CONFIG_DIRECTION_INPUT ∧
    ((gpiod_line_config_set_direction_subset gpiod_line_config_new
        GPIOD_LINE_CONFIG_DIRECTION_INPUT 2 [3, 5]).secondary.getD 0
        secondary_config_zero).num_offsets = 0 ∧
    ((gpiod_line_config_set_direction_subset gpiod_line_config_new
        GPIOD_LINE_CONFIG_DIRECTION_INPUT 2 [3, 5]).secondary.getD 0
        secondary_config_zero).offsets.take 2 ≠ [3, 5] := by
  refine ⟨by decide, by decide, by decide, by decide⟩

/-! ## Claim C2 (code bug)

Because a new secondary never receives the sanitized offset list (see C1),
`find_matching_secondary_config` can never match a multi-offset list
against an existing secondary, so every subset setter with the same
two-element list allocates a fresh secondary instead of coalescing. -/

/-- Claim C2, evaluated at the failing input L = [3, 5]: two setters of
distinct options with the same offset list allocate two secondaries, not
the claimed single one. -/
theorem C2_no_coalescing :
    (gpiod_line_config_set_direction_subset gpiod_line_config_new
        GPIOD_LINE_CONFIG_DIRECTION_INPUT 2 [3, 5]).num_secondary = 1 ∧
    (gpiod_line_config_set_bias_subset
        (gpiod_line_config_set_direction_subset gpiod_line_config_new
          GPIOD_LINE_CONFIG_DIRECTION_INPUT 2 [3, 5])
        GPIOD_LINE_CONFIG_BIAS_PULL_UP 2 [3, 5]).num_secondary = 2 := by
  refine ⟨by decide, by decide⟩

/-! ## Claim C7 (corrected)

The claim says *every* setter is a no-op once `too_complex` is set.  That
is true of the subset/offset setters (which go through
`get_secondary_config`, whose first test is `too_complex`) and of the
output-value setters, but the global primary setters
(`gpiod_line_config_set_direction` etc.) store into `config->primary`
unconditionally. -/

/-- Claim C7 counterexample: on a config whose `too_complex` flag is set,
the global `gpiod_line_config_set_direction` still changes the stored
state, so the claim "every setter ... leaves the entire stored
configuration state unchanged" fails. -/
theorem C7_counterexample_global_setter_mutates :
    gpiod_line_config_set_direction
        { gpiod_line_config_new with too_complex := true }
        GPIOD_LINE_CONFIG_DIRECTION_INPUT ≠
      { gpiod_line_config_new with too_complex := true } := by
  decide

/-- Claim C7 as amended: once `too_complex` is set, every *guarded* setter
(the subset and single-offset setters and the output-value setters) leaves
the stored configuration unchanged; only the global primary setters may
still mutate the primary block. -/
theorem C7_guarded_setters_noop (op : ConfigOp) (config : gpiod_line_config)
    (h : config.too_complex = true) (hg : isGuarded op = true) :
    applyOp op config = config :=
  guarded_op_too_complex op config h hg

/-- Witness for `C7_guarded_setters_noop` at a concrete guarded op and
config. -/
theorem C7_guarded_setters_noop_witness :
    ({ gpiod_line_config_new with too_complex := true } :
        gpiod_line_config).too_complex = true ∧
    isGuarded (ConfigOp.biasSubset GPIOD_LINE_CONFIG_BIAS_PULL_UP 2 [1, 2]) =
      true ∧
    applyOp (ConfigOp.biasSubset GPIOD_LINE_CONFIG_BIAS_PULL_UP 2 [1, 2])
        { gpiod_line_config_new with too_complex := true } =
      { gpiod_line_config_new with too_complex := true } :=
  ⟨by decide, by decide,
   C7_guarded_setters_noop _ _ (by decide) (by decide)⟩

/-! ## Claim C6 (corrected)

Compilation is *not* pure with respect to the config object: every
`goto err_2big` exit executes `config->too_complex = true`.  On success and
on EINVAL failures the config is untouched, so the compiled result still
depends only on the config contents and the offset list — but an E2BIG
failure flips the sticky flag. -/

/-- Claim C6 counterexample: compiling a config holding one output value
against zero lines fails with E2BIG and *mutates* the config (it sets
`too_complex`), so "compilation leaves the config's stored state
unchanged, whether compilation succeeds or fails" is false. -/
theorem C6_counterexample_compile_mutates :
    (gpiod_line_config_to_kernel_some
        (gpiod_line_config_set_output_value gpiod_line_config_new 0 1)
        cfgbuf_zero 0 []).2.2 ≠
      gpiod_line_config_set_output_value gpiod_line_config_new 0 1 := by
  decide

/-- Claim C6 as amended: compilation leaves the config unchanged *except*
for the sticky overflow flag — after `gpiod_line_config_to_kernel` the
config equals the original when the call did not fail with E2BIG, and
equals the original with `too_complex` forced to `true` when it did. -/
theorem C6_compile_pure_up_to_e2big (config : gpiod_line_config)
    (cfgbuf : gpio_v2_line_config) (num_lines : Nat) (offsets : List Nat) :
    ((gpiod_line_config_to_kernel_some config cfgbuf num_lines offsets).1 =
        .error .e2big →
      (gpiod_line_config_to_kernel_some config cfgbuf num_lines offsets).2.2 =
        { config with too_complex := true }) ∧
    ((gpiod_line_config_to_kernel_some config cfgbuf num_lines offsets).1 ≠
        .error .e2big →
      (gpiod_line_config_to_kernel_some config cfgbuf num_lines offsets).2.2 =
        config) := by
  unfold gpiod_line_config_to_kernel_some
  by_cases htc : config.too_complex = true
  · simp [htc]
  · rw [if_neg htc]
    cases hE1 : (to_kernel_output_stage config cfgbuf num_lines offsets).2 with
    | error e => cases e <;> simp [hE1, to_kernel_error]
    | ok idx1 =>
      cases hE3 : (to_kernel_secondaries num_lines offsets
          (config.secondary.take config.num_secondary)
          (to_kernel_debounce_stage config
            (to_kernel_output_stage config cfgbuf num_lines offsets).1 idx1).2
          (to_kernel_debounce_stage config
            (to_kernel_output_stage config cfgbuf num_lines offsets).1 idx1).1).2 with
      | error e => cases e <;> simp [hE1, hE3, to_kernel_error]
      | ok attr_idx =>
        cases hE4 : gpiod_make_kernel_flags config.primary <;>
          simp [hE1, hE3, hE4]

/-- Witness for `C6_compile_pure_up_to_e2big` at a concrete input: the
E2BIG failure of the counterexample config sets its sticky flag. -/
theorem C6_compile_pure_up_to_e2big_witness :
    (gpiod_line_config_to_kernel_some
        (gpiod_line_config_set_output_value gpiod_line_config_new 0 1)
        cfgbuf_zero 0 []).2.2 =
      { gpiod_line_config_set_output_value gpiod_line_config_new 0 1 with
        too_complex := true } :=
  (C6_compile_pure_up_to_e2big
    (gpiod_line_config_set_output_value gpiod_line_config_new 0 1)
    cfgbuf_zero 0 []).1 (by decide)

/-! ## Claim C8 (confirmed)

`gpiod_make_kernel_flags` rejects with EINVAL exactly the configs holding
an unrecognized tag (0, meaning unset, is recognized everywhere). -/

lemma kernel_flags_direction_eq_none (f : Nat) (d : Int) :
    kernel_flags_direction f d = none ↔ ¬ direction_recognized d := by
  unfold kernel_flags_direction direction_recognized
  unfold GPIOD_LINE_CONFIG_DIRECTION_AS_IS GPIOD_LINE_CONFIG_DIRECTION_INPUT
    GPIOD_LINE_CONFIG_DIRECTION_OUTPUT
  split_ifs <;> simp_all <;> tauto

lemma kernel_flags_edge_eq_none (f : Nat) (e : Int) :
    kernel_flags_edge f e = none ↔ ¬ edge_recognized e := by
  unfold kernel_flags_edge edge_recognized
  unfold GPIOD_LINE_CONFIG_EDGE_NONE GPIOD_LINE_CONFIG_EDGE_FALLING
    GPIOD_LINE_CONFIG_EDGE_RISING GPIOD_LINE_CONFIG_EDGE_BOTH
  split_ifs <;> simp_all <;> tauto

lemma kernel_flags_drive_eq_none (f : Nat) (d : Int) :
    kernel_flags_drive f d = none ↔ ¬ drive_recognized d := by
  unfold kernel_flags_drive drive_recognized
  unfold GPIOD_LINE_CONFIG_DRIVE_PUSH_PULL GPIOD_LINE_CONFIG_DRIVE_OPEN_DRAIN
    GPIOD_LINE_CONFIG_DRIVE_OPEN_SOURCE
  split_ifs <;> simp_all <;> tauto

lemma kernel_flags_bias_eq_none (f : Nat) (b : Int) :
    kernel_flags_bias f b = none ↔ ¬ bias_recognized b := by
  unfold kernel_flags_bias bias_recognized
  unfold GPIOD_LINE_CONFIG_BIAS_AS_IS GPIOD_LINE_CONFIG_BIAS_DISABLED
    GPIOD_LINE_CONFIG_BIAS_PULL_UP GPIOD_LINE_CONFIG_BIAS_PULL_DOWN
  split_ifs <;> simp_all <;> tauto

lemma kernel_flags_clock_eq_none (f : Nat) (c : Int) :
    kernel_flags_clock f c = none ↔ ¬ clock_recognized c := by
  unfold kernel_flags_clock clock_recognized
  unfold GPIOD_LINE_CONFIG_EVENT_CLOCK_MONOTONIC
    GPIOD_LINE_CONFIG_EVENT_CLOCK_REALTIME
  split_ifs <;> simp_all <;> tauto

lemma kernel_flags_direction_eq_some (f : Nat) (d : Int)
    (h : direction_recognized d) : ∃ g, kernel_flags_direction f d = some g := by
  rw [← Option.ne_none_iff_exists']
  exact fun hn => ((kernel_flags_direction_eq_none f d).mp hn) h

lemma kernel_flags_edge_eq_some (f : Nat) (e : Int)
    (h : edge_recognized e) : ∃ g, kernel_flags_edge f e = some g := by
  rw [← Option.ne_none_iff_exists']
  exact fun hn => ((kernel_flags_edge_eq_none f e).mp hn) h

lemma kernel_flags_drive_eq_some (f : Nat) (d : Int)
    (h : drive_recognized d) : ∃ g, kernel_flags_drive f d = some g := by
  rw [← Option.ne_none_iff_exists']
  exact fun hn => ((kernel_flags_drive_eq_none f d).mp hn) h

lemma kernel_flags_bias_eq_some (f : Nat) (b : Int)
    (h : bias_recognized b) : ∃ g, kernel_flags_bias f b = some g := by
  rw [← Option.ne_none_iff_exists']
  exact fun hn => ((kernel_flags_bias_eq_none f b).mp hn) h

lemma kernel_flags_clock_eq_some (f : Nat) (c : Int)
    (h : clock_recognized c) : ∃ g, kernel_flags_clock f c = some g := by
  rw [← Option.ne_none_iff_exists']
  exact fun hn => ((kernel_flags_clock_eq_none f c).mp hn) h

/-- Claim C8: kernel-flag translation fails (returns -1 with
errno = EINVAL, i.e. `none`) exactly when the base config holds a value
outside the recognized tags (0 included) for direction, edge, drive, bias
or event clock; on configs with only recognized values it succeeds. -/
theorem C8_einval_iff_unrecognized_enum (c : base_config) :
    gpiod_make_kernel_flags c = none ↔
      ¬(direction_recognized c.direction ∧ edge_recognized c.edge ∧
        drive_recognized c.drive ∧ bias_recognized c.bias ∧
        clock_recognized c.clock) := by
  constructor
  · intro h hvalid
    obtain ⟨hd, he, hdr, hb, hc⟩ := hvalid
    obtain ⟨f1, h1⟩ := kernel_flags_direction_eq_some 0 _ hd
    obtain ⟨f2, h2⟩ := kernel_flags_edge_eq_some f1 _ he
    obtain ⟨f3, h3⟩ := kernel_flags_drive_eq_some f2 _ hdr
    obtain ⟨f4, h4⟩ := kernel_flags_bias_eq_some f3 _ hb
    obtain ⟨f5, h5⟩ := kernel_flags_clock_eq_some
      (if c.active_low then f4 ||| GPIO_V2_LINE_FLAG_ACTIVE_LOW else f4) _ hc
    rw [gpiod_make_kernel_flags, h1] at h
    simp only [Option.some_bind] at h
    rw [h2] at h
    simp only [Option.some_bind] at h
    rw [h3] at h
    simp only [Option.some_bind] at h
    rw [h4] at h
    simp only [Option.some_bind] at h
    rw [h5] at h
    exact Option.noConfusion h
  · intro h
    by_cases hd : direction_recognized c.direction
    · by_cases he : edge_recognized c.edge
      · by_cases hdr : drive_recognized c.drive
        · by_cases hb : bias_recognized c.bias
          · by_cases hc : clock_recognized c.clock
            · exact absurd ⟨hd, he, hdr, hb, hc⟩ h
            · obtain ⟨f1, h1⟩ := kernel_flags_direction_eq_some 0 _ hd
              obtain ⟨f2, h2⟩ := kernel_flags_edge_eq_some f1 _ he
              obtain ⟨f3, h3⟩ := kernel_flags_drive_eq_some f2 _ hdr
              obtain ⟨f4, h4⟩ := kernel_flags_bias_eq_some f3 _ hb
              rw [gpiod_make_kernel_flags, h1]
              simp only [Option.some_bind]
              rw [h2]
              simp only [Option.some_bind]
              rw [h3]
              simp only [Option.some_bind]
              rw [h4]
              simp only [Option.some_bind]
              exact (kernel_flags_clock_eq_none _ _).mpr hc
          · obtain ⟨f1, h1⟩ := kernel_flags_direction_eq_some 0 _ hd
            obtain ⟨f2, h2⟩ := kernel_flags_edge_eq_some f1 _ he
            obtain ⟨f3, h3⟩ := kernel_flags_drive_eq_some f2 _ hdr
            rw [gpiod_make_kernel_flags, h1]
            simp only [Option.some_bind]
            rw [h2]
            simp only [Option.some_bind]
            rw [h3]
            simp only [Option.some_bind]
            rw [(kernel_flags_bias_eq_none _ _).mpr hb]
            rfl
        · obtain ⟨f1, h1⟩ := kernel_flags_direction_eq_some 0 _ hd
          obtain ⟨f2, h2⟩ := kernel_flags_edge_eq_some f1 _ he
          rw [gpiod_make_kernel_flags, h1]
          simp only [Option.some_bind]
          rw [h2]
          simp only [Option.some_bind]
          rw [(kernel_flags_drive_eq_none _ _).mpr hdr]
          rfl
      · obtain ⟨f1, h1⟩ := kernel_flags_direction_eq_some 0 _ hd
        rw [gpiod_make_kernel_flags, h1]
        simp only [Option.some_bind]
        rw [(kernel_flags_edge_eq_none _ _).mpr he]
        rfl
    · rw [gpiod_make_kernel_flags, (kernel_flags_direction_eq_none _ _).mpr hd]
      rfl

/-! ## List access helpers -/

lemma getD_set_of_ne {α : Type} (l : List α) (i j : Nat) (a d : α)
    (h : i ≠ j) : (l.set i a).getD j d = l.getD j d := by
  induction l generalizing i j with
  | nil => simp
  | cons x xs ih =>
    cases i with
    | zero =>
      cases j with
      | zero => exact absurd rfl h
      | succ j => simp [List.getD_cons_succ]
    | succ i =>
      cases j with
      | zero => simp [List.getD_cons_zero]
      | succ j =>
        simp only [List.set_cons_succ, List.getD_cons_succ]
        exact ih i j (fun hij => h (by rw [hij]))

lemma getD_set_self {α : Type} (l : List α) (i : Nat) (a d : α)
    (h : i < l.length) : (l.set i a).getD i d = a := by
  induction l generalizing i with
  | nil => simp at h
  | cons x xs ih =>
    cases i with
    | zero => rfl
    | succ i =>
      simp only [List.set_cons_succ, List.getD_cons_succ]
      exact ih i (by simpa using h)

lemma set_attr_flags (cb : gpio_v2_line_config) (idx : Nat)
    (f : gpio_v2_line_config_attribute → gpio_v2_line_config_attribute) :
    (set_attr cb idx f).flags = cb.flags := rfl

lemma set_attr_attrs_length (cb : gpio_v2_line_config) (idx : Nat)
    (f : gpio_v2_line_config_attribute → gpio_v2_line_config_attribute) :
    (set_attr cb idx f).attrs.length = cb.attrs.length := by
  simp [set_attr]

lemma set_attr_getD_ne (cb : gpio_v2_line_config) (idx j : Nat)
    (f : gpio_v2_line_config_attribute → gpio_v2_line_config_attribute)
    (h : idx ≠ j) :
    (set_attr cb idx f).attrs.getD j attr_zero = cb.attrs.getD j attr_zero :=
  getD_set_of_ne _ _ _ _ _ h

lemma set_attr_getD_self (cb : gpio_v2_line_config) (idx : Nat)
    (f : gpio_v2_line_config_attribute → gpio_v2_line_config_attribute)
    (h : idx < cb.attrs.length) :
    (set_attr cb idx f).attrs.getD idx attr_zero =
      f (cb.attrs.getD idx attr_zero) :=
  getD_set_self _ _ _ _ h

/-! ## Secondary-loop lemmas -/

/-- The secondary loop never touches attribute slots below its starting
index, and it preserves the buffer's `flags`, `num_attrs` and attribute
count. -/
lemma to_kernel_secondaries_preserves (num_lines : Nat) (offsets : List Nat) :
    ∀ (secs : List secondary_config) (a : Nat) (cb : gpio_v2_line_config),
    (∀ j, j < a →
      (to_kernel_secondaries num_lines offsets secs a cb).1.attrs.getD j attr_zero =
        cb.attrs.getD j attr_zero) ∧
    (to_kernel_secondaries num_lines offsets secs a cb).1.flags = cb.flags ∧
    (to_kernel_secondaries num_lines offsets secs a cb).1.num_attrs =
      cb.num_attrs ∧
    (to_kernel_secondaries num_lines offsets secs a cb).1.attrs.length =
      cb.attrs.length := by
  intro secs
  induction secs with
  | nil => exact fun a cb => ⟨fun j _ => rfl, rfl, rfl, rfl⟩
  | cons sec rest ih =>
    intro a cb
    unfold to_kernel_secondaries
    split
    · exact ⟨fun j _ => rfl, rfl, rfl, rfl⟩
    split
    · exact ⟨fun j _ => rfl, rfl, rfl, rfl⟩
    split
    · -- debounce-attribute branch
      split
      · exact ⟨fun j hj => set_attr_getD_ne _ _ _ _ (ne_of_gt hj), rfl, rfl,
          set_attr_attrs_length _ _ _⟩
      · refine ⟨fun j hj => ?_, ?_, ?_, ?_⟩
        · rw [(ih (a + 1) _).1 j (Nat.lt_succ_of_lt hj),
            set_attr_getD_ne _ _ _ _ (ne_of_gt hj),
            set_attr_getD_ne _ _ _ _ (ne_of_gt hj)]
        · rw [(ih (a + 1) _).2.1]; rfl
        · rw [(ih (a + 1) _).2.2.1]; rfl
        · rw [(ih (a + 1) _).2.2.2]; simp [set_attr]
    · -- flags-attribute branch
      split
      · exact ⟨fun j hj => set_attr_getD_ne _ _ _ _ (ne_of_gt hj), rfl, rfl,
          set_attr_attrs_length _ _ _⟩
      · split
        · refine ⟨fun j hj => ?_, rfl, rfl, by simp [set_attr]⟩
          rw [set_attr_getD_ne _ _ _ _ (ne_of_gt hj),
            set_attr_getD_ne _ _ _ _ (ne_of_gt hj)]
        · refine ⟨fun j hj => ?_, ?_, ?_, ?_⟩
          · rw [(ih (a + 1) _).1 j (Nat.lt_succ_of_lt hj),
              set_attr_getD_ne _ _ _ _ (ne_of_gt hj),
              set_attr_getD_ne _ _ _ _ (ne_of_gt hj),
              set_attr_getD_ne _ _ _ _ (ne_of_gt hj)]
          · rw [(ih (a + 1) _).2.1]; rfl
          · rw [(ih (a + 1) _).2.2.1]; rfl
          · rw [(ih (a + 1) _).2.2.2]; simp [set_attr]

lemma attr_store32_mod (old v : Nat) : attr_store32 old v % 2 ^ 32 = v % 2 ^ 32 := by
  unfold attr_store32
  omega

/-! Branch equations for one step of the secondary loop. -/

lemma tks_cons_full (num_lines : Nat) (offsets : List Nat)
    (sec : secondary_config) (rest : List secondary_config) (a : Nat)
    (cb : gpio_v2_line_config) (h : a = GPIO_V2_LINE_NUM_ATTRS_MAX) :
    to_kernel_secondaries num_lines offsets (sec :: rest) a cb =
      (cb, .error .e2big) := by
  rw [to_kernel_secondaries, if_pos h]

lemma tks_cons_offsets_over (num_lines : Nat) (offsets : List Nat)
    (sec : secondary_config) (rest : List secondary_config) (a : Nat)
    (cb : gpio_v2_line_config) (h1 : a ≠ GPIO_V2_LINE_NUM_ATTRS_MAX)
    (h2 : sec.num_offsets > num_lines) :
    to_kernel_secondaries num_lines offsets (sec :: rest) a cb =
      (cb, .error .e2big) := by
  rw [to_kernel_secondaries, if_neg h1, if_pos h2]

lemma tks_cons_deb_none (num_lines : Nat) (offsets : List Nat)
    (sec : secondary_config) (rest : List secondary_config) (a : Nat)
    (cb : gpio_v2_line_config) (h1 : a ≠ GPIO_V2_LINE_NUM_ATTRS_MAX)
    (h2 : ¬sec.num_offsets > num_lines)
    (h3 : sec.config.debounce_period ≠ 0)
    (h4 : set_secondary_mask sec num_lines offsets = none) :
    to_kernel_secondaries num_lines offsets (sec :: rest) a cb =
      (set_attr cb a fun x =>
        { x with id := GPIO_V2_LINE_ATTR_ID_DEBOUNCE,
                 value := attr_store32 x.value sec.config.debounce_period },
       .error .einval) := by
  rw [to_kernel_secondaries, if_neg h1, if_neg h2, if_pos h3, h4]

lemma tks_cons_deb_some (num_lines : Nat) (offsets : List Nat)
    (sec : secondary_config) (rest : List secondary_config) (a : Nat)
    (cb : gpio_v2_line_config) (mask : Nat)
    (h1 : a ≠ GPIO_V2_LINE_NUM_ATTRS_MAX)
    (h2 : ¬sec.num_offsets > num_lines)
    (h3 : sec.config.debounce_period ≠ 0)
    (h4 : set_secondary_mask sec num_lines offsets = some mask) :
    to_kernel_secondaries num_lines offsets (sec :: rest) a cb =
      to_kernel_secondaries num_lines offsets rest (a + 1)
        (set_attr
          (set_attr cb a fun x =>
            { x with id := GPIO_V2_LINE_ATTR_ID_DEBOUNCE,
                     value := attr_store32 x.value sec.config.debounce_period })
          a fun x => { x with mask := mask }) := by
  rw [to_kernel_secondaries, if_neg h1, if_neg h2, if_pos h3, h4]

lemma tks_cons_flags_none (num_lines : Nat) (offsets : List Nat)
    (sec : secondary_config) (rest : List secondary_config) (a : Nat)
    (cb : gpio_v2_line_config) (h1 : a ≠ GPIO_V2_LINE_NUM_ATTRS_MAX)
    (h2 : ¬sec.num_offsets > num_lines)
    (h3 : ¬sec.config.debounce_period ≠ 0)
    (h4 : gpiod_make_kernel_flags sec.config = none) :
    to_kernel_secondaries num_lines offsets (sec :: rest) a cb =
      (set_attr cb a fun x => { x with id := GPIO_V2_LINE_ATTR_ID_FLAGS },
       .error .einval) := by
  rw [to_kernel_secondaries, if_neg h1, if_neg h2, if_neg h3, h4]

lemma tks_cons_flags_mask_none (num_lines : Nat) (offsets : List Nat)
    (sec : secondary_config) (rest : List secondary_config) (a : Nat)
    (cb : gpio_v2_line_config) (flags : Nat)
    (h1 : a ≠ GPIO_V2_LINE_NUM_ATTRS_MAX)
    (h2 : ¬sec.num_offsets > num_lines)
    (h3 : ¬sec.config.debounce_period ≠ 0)
    (h4 : gpiod_make_kernel_flags sec.config = some flags)
    (h5 : set_secondary_mask sec num_lines offsets = none) :
    to_kernel_secondaries num_lines offsets (sec :: rest) a cb =
      (set_attr
        (set_attr cb a fun x => { x with id := GPIO_V2_LINE_ATTR_ID_FLAGS })
        a fun x => { x with value := flags },
       .error .einval) := by
  rw [to_kernel_secondaries, if_neg h1, if_neg h2, if_neg h3, h4, h5]

lemma tks_cons_flags_mask_some (num_lines : Nat) (offsets : List Nat)
    (sec : secondary_config) (rest : List secondary_config) (a : Nat)
    (cb : gpio_v2_line_config) (flags mask : Nat)
    (h1 : a ≠ GPIO_V2_LINE_NUM_ATTRS_MAX)
    (h2 : ¬sec.num_offsets > num_lines)
    (h3 : ¬sec.config.debounce_period ≠ 0)
    (h4 : gpiod_make_kernel_flags sec.config = some flags)
    (h5 : set_secondary_mask sec num_lines offsets = some mask) :
    to_kernel_secondaries num_lines offsets (sec :: rest) a cb =
      to_kernel_secondaries num_lines offsets rest (a + 1)
        (set_attr
          (set_attr
            (set_attr cb a fun x => { x with id := GPIO_V2_LINE_ATTR_ID_FLAGS })
            a fun x => { x with value := flags })
          a fun x => { x with mask := mask }) := by
  rw [to_kernel_secondaries, if_neg h1, if_neg h2, if_neg h3, h4, h5]

/-- On success the secondary loop consumes exactly one attribute slot per
secondary — slot `a + j` for secondary `j` — writing a debounce attribute
(the period truncated to the 32-bit kernel field) when the secondary's
debounce period is non-zero and a flags attribute otherwise. -/
lemma to_kernel_secondaries_ok_char (num_lines : Nat) (offsets : List Nat) :
    ∀ (secs : List secondary_config) (a : Nat) (cb : gpio_v2_line_config)
      (m : Nat),
    a + secs.length ≤ GPIO_V2_LINE_NUM_ATTRS_MAX →
    cb.attrs.length = GPIO_V2_LINE_NUM_ATTRS_MAX →
    (to_kernel_secondaries num_lines offsets secs a cb).2 = .ok m →
    m = a + secs.length ∧
    ∀ j, j < secs.length →
      ((secs.getD j secondary_config_zero).config.debounce_period ≠ 0 →
        ((to_kernel_secondaries num_lines offsets secs a cb).1.attrs.getD
            (a + j) attr_zero).id = GPIO_V2_LINE_ATTR_ID_DEBOUNCE ∧
        ((to_kernel_secondaries num_lines offsets secs a cb).1.attrs.getD
            (a + j) attr_zero).value % 2 ^ 32 =
          (secs.getD j secondary_config_zero).config.debounce_period % 2 ^ 32) ∧
      ((secs.getD j secondary_config_zero).config.debounce_period = 0 →
        ((to_kernel_secondaries num_lines offsets secs a cb).1.attrs.getD
            (a + j) attr_zero).id = GPIO_V2_LINE_ATTR_ID_FLAGS ∧
        gpiod_make_kernel_flags (secs.getD j secondary_config_zero).config =
          some ((to_kernel_secondaries num_lines offsets secs a cb).1.attrs.getD
            (a + j) attr_zero).value) := by
  intro secs
  induction secs with
  | nil =>
    intro a cb m _ _ hok
    refine ⟨?_, fun j hj => absurd hj (by simp)⟩
    cases hok
    rfl
  | cons sec rest ih =>
    intro a cb m hbound hlen hok
    have ha : a < GPIO_V2_LINE_NUM_ATTRS_MAX := by
      simp only [List.length_cons] at hbound
      omega
    by_cases hso : sec.num_offsets > num_lines
    · rw [tks_cons_offsets_over _ _ _ _ _ _ (Nat.ne_of_lt ha) hso] at hok
      cases hok
    by_cases hdeb : sec.config.debounce_period ≠ 0
    · cases hmask : set_secondary_mask sec num_lines offsets with
      | none =>
        rw [tks_cons_deb_none _ _ _ _ _ _ (Nat.ne_of_lt ha) hso hdeb hmask]
          at hok
        cases hok
      | some mask =>
        rw [tks_cons_deb_some _ _ _ _ _ _ _ (Nat.ne_of_lt ha) hso hdeb hmask]
          at hok ⊢
        have hlen2 : (set_attr
            (set_attr cb a fun x =>
              { x with id := GPIO_V2_LINE_ATTR_ID_DEBOUNCE,
                       value := attr_store32 x.value sec.config.debounce_period })
            a fun x => { x with mask := mask }).attrs.length =
            GPIO_V2_LINE_NUM_ATTRS_MAX := by
          simp [set_attr, hlen]
        obtain ⟨hm, hrest⟩ := ih (a + 1) _ m
          (by simp only [List.length_cons] at hbound; omega) hlen2 hok
        refine ⟨by simp only [List.length_cons]; omega, fun j hj => ?_⟩
        cases j with
        | zero =>
          simp only [Nat.add_zero, List.getD_cons_zero]
          rw [(to_kernel_secondaries_preserves num_lines offsets
            rest (a + 1) _).1 a (Nat.lt_succ_self a)]
          rw [set_attr_getD_self _ _ _ (by simp [set_attr, hlen]; omega),
            set_attr_getD_self _ _ _ (by rw [hlen]; omega)]
          exact ⟨fun _ => ⟨rfl, attr_store32_mod _ _⟩, fun h0 => absurd h0 hdeb⟩
        | succ j =>
          have h' := hrest j (by simpa using hj)
          have e : a + 1 + j = a + (j + 1) := by omega
          rw [e] at h'
          simpa [List.getD_cons_succ] using h'
    · cases hfl : gpiod_make_kernel_flags sec.config with
      | none =>
        rw [tks_cons_flags_none _ _ _ _ _ _ (Nat.ne_of_lt ha) hso hdeb hfl]
          at hok
        cases hok
      | some flags =>
        cases hmask : set_secondary_mask sec num_lines offsets with
        | none =>
          rw [tks_cons_flags_mask_none _ _ _ _ _ _ _ (Nat.ne_of_lt ha) hso hdeb
            hfl hmask] at hok
          cases hok
        | some mask =>
          rw [tks_cons_flags_mask_some _ _ _ _ _ _ _ _ (Nat.ne_of_lt ha) hso
            hdeb hfl hmask] at hok ⊢
          have hlen2 : (set_attr (set_attr
              (set_attr cb a fun x => { x with id := GPIO_V2_LINE_ATTR_ID_FLAGS })
              a fun x => { x with value := flags })
              a fun x => { x with mask := mask }).attrs.length =
              GPIO_V2_LINE_NUM_ATTRS_MAX := by
            simp [set_attr, hlen]
          obtain ⟨hm, hrest⟩ := ih (a + 1) _ m
            (by simp only [List.length_cons] at hbound; omega) hlen2 hok
          refine ⟨by simp only [List.length_cons]; omega, fun j hj => ?_⟩
          cases j with
          | zero =>
            simp only [Nat.add_zero, List.getD_cons_zero]
            rw [(to_kernel_secondaries_preserves num_lines offsets
              rest (a + 1) _).1 a (Nat.lt_succ_self a)]
            rw [set_attr_getD_self _ _ _ (by simp [set_attr, hlen]; omega),
              set_attr_getD_self _ _ _ (by simp [set_attr, hlen]; omega),
              set_attr_getD_self _ _ _ (by rw [hlen]; omega)]
            push_neg at hdeb
            exact ⟨fun hne => absurd hdeb hne, fun _ => ⟨rfl, hfl⟩⟩
          | succ j =>
            have h' := hrest j (by simpa using hj)
            have e : a + 1 + j = a + (j + 1) := by omega
            rw [e] at h'
            simpa [List.getD_cons_succ] using h'

/-- The loop reports E2BIG only when the slots genuinely run out (provided
every secondary's offsets fit the request). -/
lemma to_kernel_secondaries_e2big (num_lines : Nat) (offsets : List Nat) :
    ∀ (secs : List secondary_config) (a : Nat) (cb : gpio_v2_line_config),
    (to_kernel_secondaries num_lines offsets secs a cb).2 = .error .e2big →
    (∀ sec ∈ secs, sec.num_offsets ≤ num_lines) →
    GPIO_V2_LINE_NUM_ATTRS_MAX < a + secs.length := by
  intro secs
  induction secs with
  | nil => intro a cb h _; cases h
  | cons sec rest ih =>
    intro a cb h hall
    by_cases ha : a = GPIO_V2_LINE_NUM_ATTRS_MAX
    · simp only [List.length_cons]
      omega
    have hso : ¬sec.num_offsets > num_lines := by
      simpa using hall sec (by simp)
    by_cases hdeb : sec.config.debounce_period ≠ 0
    · cases hmask : set_secondary_mask sec num_lines offsets with
      | none =>
        rw [tks_cons_deb_none _ _ _ _ _ _ ha hso hdeb hmask] at h
        cases h
      | some mask =>
        rw [tks_cons_deb_some _ _ _ _ _ _ _ ha hso hdeb hmask] at h
        have := ih (a + 1) _ h (fun s hs => hall s (by simp [hs]))
        simp only [List.length_cons]
        omega
    · cases hfl : gpiod_make_kernel_flags sec.config with
      | none =>
        rw [tks_cons_flags_none _ _ _ _ _ _ ha hso hdeb hfl] at h
        cases h
      | some flags =>
        cases hmask : set_secondary_mask sec num_lines offsets with
        | none =>
          rw [tks_cons_flags_mask_none _ _ _ _ _ _ _ ha hso hdeb hfl hmask] at h
          cases h
        | some mask =>
          rw [tks_cons_flags_mask_some _ _ _ _ _ _ _ _ ha hso hdeb hfl hmask]
            at h
          have := ih (a + 1) _ h (fun s hs => hall s (by simp [hs]))
          simp only [List.length_cons]
          omega

/-- When the needed slots exceed the limit the loop cannot succeed. -/
lemma to_kernel_secondaries_overflow (num_lines : Nat) (offsets : List Nat) :
    ∀ (secs : List secondary_config) (a : Nat) (cb : gpio_v2_line_config),
    GPIO_V2_LINE_NUM_ATTRS_MAX < a + secs.length →
    a ≤ GPIO_V2_LINE_NUM_ATTRS_MAX →
    ∃ e, (to_kernel_secondaries num_lines offsets secs a cb).2 = .error e := by
  intro secs
  induction secs with
  | nil =>
    intro a cb hover hle
    simp at hover
    omega
  | cons sec rest ih =>
    intro a cb hover hle
    by_cases ha : a = GPIO_V2_LINE_NUM_ATTRS_MAX
    · exact ⟨.e2big, by rw [tks_cons_full _ _ _ _ _ _ ha]⟩
    by_cases hso : sec.num_offsets > num_lines
    · exact ⟨.e2big, by rw [tks_cons_offsets_over _ _ _ _ _ _ ha hso]⟩
    by_cases hdeb : sec.config.debounce_period ≠ 0
    · cases hmask : set_secondary_mask sec num_lines offsets with
      | none =>
        exact ⟨.einval, by rw [tks_cons_deb_none _ _ _ _ _ _ ha hso hdeb hmask]⟩
      | some mask =>
        rw [tks_cons_deb_some _ _ _ _ _ _ _ ha hso hdeb hmask]
        exact ih (a + 1) _
          (by simp only [List.length_cons] at hover; omega) (by omega)
    · cases hfl : gpiod_make_kernel_flags sec.config with
      | none =>
        exact ⟨.einval, by rw [tks_cons_flags_none _ _ _ _ _ _ ha hso hdeb hfl]⟩
      | some flags =>
        cases hmask : set_secondary_mask sec num_lines offsets with
        | none =>
          exact ⟨.einval, by
            rw [tks_cons_flags_mask_none _ _ _ _ _ _ _ ha hso hdeb hfl hmask]⟩
        | some mask =>
          rw [tks_cons_flags_mask_some _ _ _ _ _ _ _ _ ha hso hdeb hfl hmask]
          exact ih (a + 1) _
            (by simp only [List.length_cons] at hover; omega) (by omega)

/-- The output stage fails with E2BIG exactly when there are stored output
values and they outnumber the requested lines. -/
lemma to_kernel_output_stage_e2big_iff (config : gpiod_line_config)
    (cfgbuf : gpio_v2_line_config) (num_lines : Nat) (offsets : List Nat) :
    (to_kernel_output_stage config cfgbuf num_lines offsets).2 =
        .error .e2big ↔
      config.num_output_values ≠ 0 ∧ num_lines < config.num_output_values := by
  unfold to_kernel_output_stage
  by_cases h0 : config.num_output_values ≠ 0
  · rw [if_pos h0]
    by_cases h1 : config.num_output_values > num_lines
    · rw [if_pos h1]
      simpa [h0] using h1
    · rw [if_neg h1]
      cases hm : set_kernel_output_values config num_lines offsets with
      | none => simp; omega
      | some mv => simp; omega
  · rw [if_neg h0]
    simp at h0
    simp [h0]

/-- On success the output stage returns slot 1 when an output-values
attribute was emitted and slot 0 otherwise. -/
lemma to_kernel_output_stage_ok (config : gpiod_line_config)
    (cfgbuf : gpio_v2_line_config) (num_lines : Nat) (offsets : List Nat)
    (idx : Nat)
    (h : (to_kernel_output_stage config cfgbuf num_lines offsets).2 = .ok idx) :
    idx = if config.num_output_values ≠ 0 then 1 else 0 := by
  unfold to_kernel_output_stage at h
  by_cases h0 : config.num_output_values ≠ 0
  · rw [if_pos h0] at h
    rw [if_pos h0]
    by_cases h1 : config.num_output_values > num_lines
    · rw [if_pos h1] at h; cases h
    · rw [if_neg h1] at h
      cases hm : set_kernel_output_values config num_lines offsets with
      | none => rw [hm] at h; cases h
      | some mv => rw [hm] at h; cases h; rfl
  · rw [if_neg h0] at h
    rw [if_neg h0]
    cases h
    rfl

/-! Branch equations for `gpiod_line_config_to_kernel_some`. -/

lemma ctk_too_complex (config : gpiod_line_config)
    (cfgbuf : gpio_v2_line_config) (num_lines : Nat) (offsets : List Nat)
    (h : config.too_complex = true) :
    gpiod_line_config_to_kernel_some config cfgbuf num_lines offsets =
      (.error .e2big, cfgbuf, { config with too_complex := true }) := by
  unfold gpiod_line_config_to_kernel_some
  rw [if_pos h]

lemma ctk_output_err (config : gpiod_line_config)
    (cfgbuf : gpio_v2_line_config) (num_lines : Nat) (offsets : List Nat)
    (e : CErr) (htc : ¬config.too_complex = true)
    (hE1 : (to_kernel_output_stage config cfgbuf num_lines offsets).2 =
      .error e) :
    gpiod_line_config_to_kernel_some config cfgbuf num_lines offsets =
      to_kernel_error e (to_kernel_output_stage config cfgbuf num_lines offsets).1
        config := by
  unfold gpiod_line_config_to_kernel_some
  rw [if_neg htc]
  simp only [hE1]

lemma ctk_sec_err (config : gpiod_line_config)
    (cfgbuf : gpio_v2_line_config) (num_lines : Nat) (offsets : List Nat)
    (idx1 : Nat) (e : CErr) (htc : ¬config.too_complex = true)
    (hE1 : (to_kernel_output_stage config cfgbuf num_lines offsets).2 = .ok idx1)
    (hE3 : (to_kernel_secondaries num_lines offsets
        (config.secondary.take config.num_secondary)
        (to_kernel_debounce_stage config
          (to_kernel_output_stage config cfgbuf num_lines offsets).1 idx1).2
        (to_kernel_debounce_stage config
          (to_kernel_output_stage config cfgbuf num_lines offsets).1 idx1).1).2 =
      .error e) :
    gpiod_line_config_to_kernel_some config cfgbuf num_lines offsets =
      to_kernel_error e
        (to_kernel_secondaries num_lines offsets
          (config.secondary.take config.num_secondary)
          (to_kernel_debounce_stage config
            (to_kernel_output_stage config cfgbuf num_lines offsets).1 idx1).2
          (to_kernel_debounce_stage config
            (to_kernel_output_stage config cfgbuf num_lines offsets).1 idx1).1).1
        config := by
  unfold gpiod_line_config_to_kernel_some
  rw [if_neg htc]
  simp only [hE1, hE3]

lemma ctk_primary_flags_none (config : gpiod_line_config)
    (cfgbuf : gpio_v2_line_config) (num_lines : Nat) (offsets : List Nat)
    (idx1 attr_idx : Nat) (htc : ¬config.too_complex = true)
    (hE1 : (to_kernel_output_stage config cfgbuf num_lines offsets).2 = .ok idx1)
    (hE3 : (to_kernel_secondaries num_lines offsets
        (config.secondary.take config.num_secondary)
        (to_kernel_debounce_stage config
          (to_kernel_output_stage config cfgbuf num_lines offsets).1 idx1).2
        (to_kernel_debounce_stage config
          (to_kernel_output_stage config cfgbuf num_lines offsets).1 idx1).1).2 =
      .ok attr_idx)
    (hE4 : gpiod_make_kernel_flags config.primary = none) :
    gpiod_line_config_to_kernel_some config cfgbuf num_lines offsets =
      (.error .einval,
       (to_kernel_secondaries num_lines offsets
         (config.secondary.take config.num_secondary)
         (to_kernel_debounce_stage config
           (to_kernel_output_stage config cfgbuf num_lines offsets).1 idx1).2
         (to_kernel_debounce_stage config
           (to_kernel_output_stage config cfgbuf num_lines offsets).1 idx1).1).1,
       config) := by
  unfold gpiod_line_config_to_kernel_some
  rw [if_neg htc]
  simp only [hE1, hE3, hE4]

lemma ctk_success (config : gpiod_line_config)
    (cfgbuf : gpio_v2_line_config) (num_lines : Nat) (offsets : List Nat)
    (idx1 attr_idx flags : Nat) (htc : ¬config.too_complex = true)
    (hE1 : (to_kernel_output_stage config cfgbuf num_lines offsets).2 = .ok idx1)
    (hE3 : (to_kernel_secondaries num_lines offsets
        (config.secondary.take config.num_secondary)
        (to_kernel_debounce_stage config
          (to_kernel_output_stage config cfgbuf num_lines offsets).1 idx1).2
        (to_kernel_debounce_stage config
          (to_kernel_output_stage config cfgbuf num_lines offsets).1 idx1).1).2 =
      .ok attr_idx)
    (hE4 : gpiod_make_kernel_flags config.primary = some flags) :
    gpiod_line_config_to_kernel_some config cfgbuf num_lines offsets =
      (.ok (),
       { (to_kernel_secondaries num_lines offsets
           (config.secondary.take config.num_secondary)
           (to_kernel_debounce_stage config
             (to_kernel_output_stage config cfgbuf num_lines offsets).1 idx1).2
           (to_kernel_debounce_stage config
             (to_kernel_output_stage config cfgbuf num_lines offsets).1 idx1).1).1
         with flags := flags, num_attrs := attr_idx },
       config) := by
  unfold gpiod_line_config_to_kernel_some
  rw [if_neg htc]
  simp only [hE1, hE3, hE4]

lemma to_kernel_debounce_stage_idx (config : gpiod_line_config)
    (cb : gpio_v2_line_config) (idx : Nat) :
    (to_kernel_debounce_stage config cb idx).2 =
      if config.primary.debounce_period ≠ 0 then idx + 1 else idx := by
  unfold to_kernel_debounce_stage
  split <;> rfl

/-! ## Claim C4 (corrected)

A compilation eligible for E2BIG on attribute-slot exhaustion can be
preempted by an earlier EINVAL failure (an output value whose offset is
absent from the offset list is reported before the secondary loop ever
reaches the slot limit), so "fails with E2BIG exactly when ..." needs the
proviso that the run did not fail with EINVAL first.  The stickiness parts
of the claim hold as stated. -/

/-- Claim C4 counterexample: `c4_config` needs 11 > 10 attribute slots and
is neither `too_complex` nor over the output-value count, so by the claim
compilation against `num_lines = 1`, `offsets = [7]` must fail with E2BIG;
it actually fails with EINVAL (offset 3 is not in the offset list, and the
output-values stage runs before the slot check). -/
theorem C4_counterexample_einval_preempts_e2big :
    attrs_needed c4_config = 11 ∧
    c4_config.too_complex = false ∧
    c4_config.num_output_values ≤ 1 ∧
    (gpiod_line_config_to_kernel_some c4_config cfgbuf_zero 1 [7]).1 =
      .error .einval := by
  refine ⟨by decide, by decide, by decide, by decide⟩

/-- Claim C4 as amended: for a well-formed config (the secondary array has
its C length, at most the limit of used secondaries, and no stored
secondary addresses more offsets than requested — stored secondaries are
reachable only with empty offset lists), compilation fails with -1/E2BIG
exactly when the config is `too_complex`, or more output values are stored
than lines requested, or the needed attribute slots exceed the kernel
limit *and* the run did not already fail with EINVAL; and once
`too_complex` is set no setter call ever clears it. -/
theorem C4_e2big_conditions (config : gpiod_line_config)
    (cfgbuf : gpio_v2_line_config) (num_lines : Nat) (offsets : List Nat)
    (h_len : config.secondary.length = GPIO_V2_LINE_NUM_ATTRS_MAX)
    (h_ns : config.num_secondary ≤ GPIO_V2_LINE_NUM_ATTRS_MAX)
    (h_sec : ∀ sec ∈ config.secondary.take config.num_secondary,
      sec.num_offsets ≤ num_lines) :
    ((gpiod_line_config_to_kernel_some config cfgbuf num_lines offsets).1 =
        .error .e2big ↔
      (config.too_complex = true ∨
        num_lines < config.num_output_values ∨
        (GPIO_V2_LINE_NUM_ATTRS_MAX < attrs_needed config ∧
          (gpiod_line_config_to_kernel_some config cfgbuf num_lines offsets).1 ≠
            .error .einval))) ∧
    (∀ op : ConfigOp, config.too_complex = true →
      (applyOp op config).too_complex = true) := by
  have htake : (config.secondary.take config.num_secondary).length =
      config.num_secondary := by
    rw [List.length_take, h_len]
    omega
  refine ⟨⟨fun h => ?_, fun h => ?_⟩, fun op htc => too_complex_sticky op config htc⟩
  · -- forward: an E2BIG failure implies one of the three conditions
    by_cases htc : config.too_complex = true
    · exact Or.inl htc
    cases hE1 : (to_kernel_output_stage config cfgbuf num_lines offsets).2 with
    | error e =>
      cases e with
      | e2big =>
        have := (to_kernel_output_stage_e2big_iff config cfgbuf num_lines
          offsets).mp hE1
        exact Or.inr (Or.inl this.2)
      | einval =>
        rw [ctk_output_err config cfgbuf num_lines offsets .einval htc hE1] at h
        cases h
    | ok idx1 =>
      cases hE3 : (to_kernel_secondaries num_lines offsets
          (config.secondary.take config.num_secondary)
          (to_kernel_debounce_stage config
            (to_kernel_output_stage config cfgbuf num_lines offsets).1 idx1).2
          (to_kernel_debounce_stage config
            (to_kernel_output_stage config cfgbuf num_lines offsets).1 idx1).1).2
        with
      | error e =>
        cases e with
        | e2big =>
          have hover := to_kernel_secondaries_e2big num_lines offsets _ _ _
            hE3 h_sec
          rw [htake, to_kernel_debounce_stage_idx,
            to_kernel_output_stage_ok config cfgbuf num_lines offsets idx1 hE1]
            at hover
          refine Or.inr (Or.inr ⟨?_, ?_⟩)
          · unfold attrs_needed
            split at hover <;> split at hover <;> simp_all <;> omega
          · rw [ctk_sec_err config cfgbuf num_lines offsets idx1 .e2big htc
              hE1 hE3]
            simp [to_kernel_error]
        | einval =>
          rw [ctk_sec_err config cfgbuf num_lines offsets idx1 .einval htc
            hE1 hE3] at h
          cases h
      | ok attr_idx =>
        cases hE4 : gpiod_make_kernel_flags config.primary with
        | none =>
          rw [ctk_primary_flags_none config cfgbuf num_lines offsets idx1
            attr_idx htc hE1 hE3 hE4] at h
          cases h
        | some flags =>
          rw [ctk_success config cfgbuf num_lines offsets idx1 attr_idx flags
            htc hE1 hE3 hE4] at h
          cases h
  · -- backward: each condition produces an E2BIG failure
    by_cases htc : config.too_complex = true
    · rw [ctk_too_complex config cfgbuf num_lines offsets htc]
    rcases h with h | h | ⟨hover, hne⟩
    · exact absurd h htc
    · have h0 : config.num_output_values ≠ 0 := by omega
      have hE1 : (to_kernel_output_stage config cfgbuf num_lines offsets).2 =
          .error .e2big :=
        (to_kernel_output_stage_e2big_iff config cfgbuf num_lines offsets).mpr
          ⟨h0, h⟩
      rw [ctk_output_err config cfgbuf num_lines offsets .e2big htc hE1]
      rfl
    · by_cases hnl : num_lines < config.num_output_values
      · have h0 : config.num_output_values ≠ 0 := by omega
        have hE1 : (to_kernel_output_stage config cfgbuf num_lines offsets).2 =
            .error .e2big :=
          (to_kernel_output_stage_e2big_iff config cfgbuf num_lines offsets).mpr
            ⟨h0, hnl⟩
        rw [ctk_output_err config cfgbuf num_lines offsets .e2big htc hE1]
        rfl
      cases hE1 : (to_kernel_output_stage config cfgbuf num_lines offsets).2
        with
      | error e =>
        cases e with
        | e2big =>
          have := (to_kernel_output_stage_e2big_iff config cfgbuf num_lines
            offsets).mp hE1
          exact absurd this.2 hnl
        | einval =>
          exact absurd (by
            rw [ctk_output_err config cfgbuf num_lines offsets .einval htc hE1]
            rfl) hne
      | ok idx1 =>
        have hidx2 : (to_kernel_debounce_stage config
            (to_kernel_output_stage config cfgbuf num_lines offsets).1 idx1).2 +
            (config.secondary.take config.num_secondary).length =
            attrs_needed config := by
          rw [htake, to_kernel_debounce_stage_idx,
            to_kernel_output_stage_ok config cfgbuf num_lines offsets idx1 hE1]
          unfold attrs_needed
          split <;> split <;> omega
        have hle : (to_kernel_debounce_stage config
            (to_kernel_output_stage config cfgbuf num_lines offsets).1 idx1).2 ≤
            GPIO_V2_LINE_NUM_ATTRS_MAX := by
          rw [to_kernel_debounce_stage_idx,
            to_kernel_output_stage_ok config cfgbuf num_lines offsets idx1 hE1]
          unfold GPIO_V2_LINE_NUM_ATTRS_MAX
          split <;> split <;> omega
        obtain ⟨e, hE3⟩ := to_kernel_secondaries_overflow num_lines offsets
          (config.secondary.take config.num_secondary) _ _
          (by omega) hle
        cases e with
        | e2big =>
          rw [ctk_sec_err config cfgbuf num_lines offsets idx1 .e2big htc
            hE1 hE3]
          rfl
        | einval =>
          exact absurd (by
            rw [ctk_sec_err config cfgbuf num_lines offsets idx1 .einval htc
              hE1 hE3]
            rfl) hne

/-- Witness for `C4_e2big_conditions`: a fresh config compiled against zero
lines does not fail with E2BIG. -/
theorem C4_e2big_conditions_witness :
    (gpiod_line_config_to_kernel_some gpiod_line_config_new cfgbuf_zero 0 []).1 ≠
      Except.error CErr.e2big := by
  have h := (C4_e2big_conditions gpiod_line_config_new cfgbuf_zero 0 []
    (by decide) (by decide) (by decide)).1
  intro hcontra
  rcases h.mp hcontra with h1 | h2 | ⟨h3, _⟩
  · exact absurd h1 (by decide)
  · exact absurd h2 (by decide)
  · exact absurd h3 (by decide)

/-! ## Claim C9 (corrected)

Each secondary is emitted as exactly one attribute — debounce if its
period is non-zero (dropping its flag options), flags otherwise — but the
kernel's `debounce_period_us` field is 32 bits while the stored period is
a 64-bit `unsigned long`, so the attribute carries the period *truncated
to 32 bits*, not the period itself. -/

lemma to_kernel_error_fst (e : CErr) (cb : gpio_v2_line_config)
    (config : gpiod_line_config) :
    (to_kernel_error e cb config).1 = .error e := by
  cases e <;> rfl

lemma to_kernel_error_buf (e : CErr) (cb : gpio_v2_line_config)
    (config : gpiod_line_config) :
    (to_kernel_error e cb config).2.1 = cb := by
  cases e <;> rfl

lemma to_kernel_output_stage_attrs_length (config : gpiod_line_config)
    (cfgbuf : gpio_v2_line_config) (num_lines : Nat) (offsets : List Nat) :
    (to_kernel_output_stage config cfgbuf num_lines offsets).1.attrs.length =
      cfgbuf.attrs.length := by
  unfold to_kernel_output_stage
  split
  · split
    · rfl
    · cases hm : set_kernel_output_values config num_lines offsets with
      | none => simp [hm, set_attr]
      | some mv => simp [hm, set_attr]
  · rfl

lemma to_kernel_debounce_stage_attrs_length (config : gpiod_line_config)
    (cb : gpio_v2_line_config) (idx : Nat) :
    (to_kernel_debounce_stage config cb idx).1.attrs.length =
      cb.attrs.length := by
  unfold to_kernel_debounce_stage
  split <;> simp [set_attr]

lemma to_kernel_debounce_stage_getD_lt (config : gpiod_line_config)
    (cb : gpio_v2_line_config) (idx j : Nat) (h : j < idx) :
    (to_kernel_debounce_stage config cb idx).1.attrs.getD j attr_zero =
      cb.attrs.getD j attr_zero := by
  unfold to_kernel_debounce_stage
  split
  · exact set_attr_getD_ne _ _ _ _ (ne_of_gt h)
  · rfl

/-- Claim C9 as amended: on a successful compilation of a well-formed
config, secondary `j` is emitted as exactly one kernel attribute, at slot
`base + j` (`base` counts the output-values attribute and the primary
debounce attribute), and `num_attrs` equals `base + num_secondary`; the
attribute is a debounce attribute whose 32-bit field carries the
secondary's period modulo `2 ^ 32` when that period is non-zero (the flag
options of such a secondary are dropped), and a flags attribute carrying
the translated flags when the period is zero. -/
theorem C9_secondary_attr_emission (config : gpiod_line_config)
    (cfgbuf : gpio_v2_line_config) (num_lines : Nat) (offsets : List Nat)
    (h_attrs : cfgbuf.attrs.length = GPIO_V2_LINE_NUM_ATTRS_MAX)
    (h_len : config.secondary.length = GPIO_V2_LINE_NUM_ATTRS_MAX)
    (h_ns : config.num_secondary ≤ GPIO_V2_LINE_NUM_ATTRS_MAX)
    (h_ok : (gpiod_line_config_to_kernel_some config cfgbuf num_lines
      offsets).1 = .ok ()) :
    (gpiod_line_config_to_kernel_some config cfgbuf num_lines
        offsets).2.1.num_attrs =
      ((if config.num_output_values ≠ 0 then 1 else 0) +
        (if config.primary.debounce_period ≠ 0 then 1 else 0)) +
        config.num_secondary ∧
    ∀ j, j < config.num_secondary →
      ((config.secondary.getD j secondary_config_zero).config.debounce_period ≠ 0 →
        ((gpiod_line_config_to_kernel_some config cfgbuf num_lines
            offsets).2.1.attrs.getD
            (((if config.num_output_values ≠ 0 then 1 else 0) +
              (if config.primary.debounce_period ≠ 0 then 1 else 0)) + j)
            attr_zero).id = GPIO_V2_LINE_ATTR_ID_DEBOUNCE ∧
        ((gpiod_line_config_to_kernel_some config cfgbuf num_lines
            offsets).2.1.attrs.getD
            (((if config.num_output_values ≠ 0 then 1 else 0) +
              (if config.primary.debounce_period ≠ 0 then 1 else 0)) + j)
            attr_zero).value % 2 ^ 32 =
          (config.secondary.getD j secondary_config_zero).config.debounce_period %
            2 ^ 32) ∧
      ((config.secondary.getD j secondary_config_zero).config.debounce_period = 0 →
        ((gpiod_line_config_to_kernel_some config cfgbuf num_lines
            offsets).2.1.attrs.getD
            (((if config.num_output_values ≠ 0 then 1 else 0) +
              (if config.primary.debounce_period ≠ 0 then 1 else 0)) + j)
            attr_zero).id = GPIO_V2_LINE_ATTR_ID_FLAGS ∧
        gpiod_make_kernel_flags
            (config.secondary.getD j secondary_config_zero).config =
          some ((gpiod_line_config_to_kernel_some config cfgbuf num_lines
            offsets).2.1.attrs.getD
            (((if config.num_output_values ≠ 0 then 1 else 0) +
              (if config.primary.debounce_period ≠ 0 then 1 else 0)) + j)
            attr_zero).value) := by
  by_cases htc : config.too_complex = true
  · rw [ctk_too_complex config cfgbuf num_lines offsets htc] at h_ok
    cases h_ok
  have htake : (config.secondary.take config.num_secondary).length =
      config.num_secondary := by
    rw [List.length_take, h_len]
    omega
  cases hE1 : (to_kernel_output_stage config cfgbuf num_lines offsets).2 with
  | error e =>
    rw [ctk_output_err config cfgbuf num_lines offsets e htc hE1,
      to_kernel_error_fst] at h_ok
    cases h_ok
  | ok idx1 =>
    have hidx1 := to_kernel_output_stage_ok config cfgbuf num_lines offsets
      idx1 hE1
    cases hE3 : (to_kernel_secondaries num_lines offsets
        (config.secondary.take config.num_secondary)
        (to_kernel_debounce_stage config
          (to_kernel_output_stage config cfgbuf num_lines offsets).1 idx1).2
        (to_kernel_debounce_stage config
          (to_kernel_output_stage config cfgbuf num_lines offsets).1 idx1).1).2
      with
    | error e =>
      rw [ctk_sec_err config cfgbuf num_lines offsets idx1 e htc hE1 hE3,
        to_kernel_error_fst] at h_ok
      cases h_ok
    | ok attr_idx =>
      cases hE4 : gpiod_make_kernel_flags config.primary with
      | none =>
        rw [ctk_primary_flags_none config cfgbuf num_lines offsets idx1
          attr_idx htc hE1 hE3 hE4] at h_ok
        cases h_ok
      | some flags =>
        -- the compiled buffer is the loop's buffer with flags/num_attrs set
        have hbase : (to_kernel_debounce_stage config
            (to_kernel_output_stage config cfgbuf num_lines offsets).1 idx1).2 =
            (if config.num_output_values ≠ 0 then 1 else 0) +
              (if config.primary.debounce_period ≠ 0 then 1 else 0) := by
          rw [to_kernel_debounce_stage_idx, hidx1]
          split <;> split <;> omega
        have hbound : (to_kernel_debounce_stage config
            (to_kernel_output_stage config cfgbuf num_lines offsets).1 idx1).2 +
            (config.secondary.take config.num_secondary).length ≤
            GPIO_V2_LINE_NUM_ATTRS_MAX := by
          by_contra hover
          obtain ⟨e, hbad⟩ := to_kernel_secondaries_overflow num_lines offsets
            (config.secondary.take config.num_secondary)
            (to_kernel_debounce_stage config
              (to_kernel_output_stage config cfgbuf num_lines offsets).1 idx1).2
            (to_kernel_debounce_stage config
              (to_kernel_output_stage config cfgbuf num_lines offsets).1 idx1).1
            (by omega)
            (by
              rw [hbase]
              unfold GPIO_V2_LINE_NUM_ATTRS_MAX
              split <;> split <;> omega)
          rw [hbad] at hE3
          cases hE3
        have hcblen : (to_kernel_debounce_stage config
            (to_kernel_output_stage config cfgbuf num_lines offsets).1
            idx1).1.attrs.length = GPIO_V2_LINE_NUM_ATTRS_MAX := by
          rw [to_kernel_debounce_stage_attrs_length,
            to_kernel_output_stage_attrs_length, h_attrs]
        obtain ⟨hm, hchar⟩ := to_kernel_secondaries_ok_char num_lines offsets
          (config.secondary.take config.num_secondary) _ _ attr_idx
          hbound hcblen hE3
        have hbuf : (gpiod_line_config_to_kernel_some config cfgbuf num_lines
            offsets).2.1.attrs =
            (to_kernel_secondaries num_lines offsets
              (config.secondary.take config.num_secondary)
              (to_kernel_debounce_stage config
                (to_kernel_output_stage config cfgbuf num_lines offsets).1
                idx1).2
              (to_kernel_debounce_stage config
                (to_kernel_output_stage config cfgbuf num_lines offsets).1
                idx1).1).1.attrs := by
          rw [ctk_success config cfgbuf num_lines offsets idx1 attr_idx flags
            htc hE1 hE3 hE4]
        have hnum : (gpiod_line_config_to_kernel_some config cfgbuf num_lines
            offsets).2.1.num_attrs = attr_idx := by
          rw [ctk_success config cfgbuf num_lines offsets idx1 attr_idx flags
            htc hE1 hE3 hE4]
        constructor
        · rw [hnum, hm, htake, hbase]
        · intro j hj
          have hj' : j < (config.secondary.take config.num_secondary).length := by
            rw [htake]; exact hj
          have hgetD : (config.secondary.take config.num_secondary).getD j
              secondary_config_zero =
              config.secondary.getD j secondary_config_zero := by
            have h1 : j < config.secondary.length := by
              rw [h_len]; omega
            simp [List.getD, List.getElem?_take, hj, Nat.lt_of_lt_of_le hj h_ns]
          have hc := hchar j hj'
          rw [hgetD] at hc
          rw [hbuf, ← hbase]
          exact hc

/-- Claim C9 counterexample: the stored debounce period is `2 ^ 32`, the
compilation succeeds and emits a debounce attribute for that secondary,
but the attribute's value is 0 — it does not carry "that period" (the
kernel field is 32 bits wide). -/
theorem C9_counterexample_truncated_period :
    (c9_config.secondary.getD 0 secondary_config_zero).config.debounce_period =
      2 ^ 32 ∧
    (gpiod_line_config_to_kernel_some c9_config cfgbuf_zero 1 [0]).1 = .ok () ∧
    ((gpiod_line_config_to_kernel_some c9_config cfgbuf_zero 1
        [0]).2.1.attrs.getD 0 attr_zero).id = GPIO_V2_LINE_ATTR_ID_DEBOUNCE ∧
    ((gpiod_line_config_to_kernel_some c9_config cfgbuf_zero 1
        [0]).2.1.attrs.getD 0 attr_zero).value = 0 := by
  refine ⟨by decide, by decide, by decide, by decide⟩

/-- Witness for `C9_secondary_attr_emission` at a concrete config. -/
theorem C9_secondary_attr_emission_witness :
    (gpiod_line_config_to_kernel_some c9_witness_config cfgbuf_zero 1
        [0]).2.1.num_attrs = 1 ∧
    ((gpiod_line_config_to_kernel_some c9_witness_config cfgbuf_zero 1
        [0]).2.1.attrs.getD 0 attr_zero).id = GPIO_V2_LINE_ATTR_ID_DEBOUNCE ∧
    ((gpiod_line_config_to_kernel_some c9_witness_config cfgbuf_zero 1
        [0]).2.1.attrs.getD 0 attr_zero).value % 2 ^ 32 = 100 := by
  have h := C9_secondary_attr_emission c9_witness_config cfgbuf_zero 1 [0]
    (by decide) (by decide) (by decide) (by decide)
  have h2 := (h.2 0 (by decide)).1 (by decide)
  exact ⟨by simpa using h.1, by simpa using h2.1, by
    have := h2.2
    simpa using this⟩

/-! ## Claim C5 (corrected)

Bit-level characterisation of the output-values attribute. -/

lemma find_bitmap_index_lt (needle num_lines : Nat) (haystack : List Nat)
    (k : Nat) (h : find_bitmap_index needle num_lines haystack = some k) :
    k < num_lines := by
  have := List.mem_of_find?_eq_some h
  simpa using this

lemma find_bitmap_index_getD (needle num_lines : Nat) (haystack : List Nat)
    (k : Nat) (h : find_bitmap_index needle num_lines haystack = some k) :
    haystack.getD k 0 = needle := by
  have := List.find?_some h
  simp at this
  simpa [List.getD] using this.symm

lemma set_bit_testBit (m i k : Nat) :
    (gpiod_line_mask_set_bit m i).testBit k = (m.testBit k || decide (i = k)) := by
  unfold gpiod_line_mask_set_bit
  rw [Nat.testBit_or, Nat.testBit_two_pow]

lemma set_bit_lt (m i : Nat) (hm : m < 2 ^ 64) (hi : i < 64) :
    gpiod_line_mask_set_bit m i < 2 ^ 64 :=
  Nat.or_lt_two_pow hm
    (Nat.pow_lt_pow_right (by omega) hi)

lemma assign_bit_testBit (m i k : Nat) (b : Bool) (hi : i < 64) (hk : k < 64) :
    (gpiod_line_mask_assign_bit m i b).testBit k =
      if i = k then b else m.testBit k := by
  unfold gpiod_line_mask_assign_bit gpiod_line_mask_fill
  cases b with
  | true =>
    rw [if_pos rfl, Nat.testBit_or, Nat.testBit_two_pow]
    by_cases hik : i = k
    · simp [hik]
    · simp [hik]
  | false =>
    rw [if_neg (by simp), Nat.testBit_land, Nat.testBit_xor,
      Nat.testBit_two_pow_sub_one, Nat.testBit_two_pow]
    by_cases hik : i = k
    · simp [hik, hk]
    · simp [hik, hk]

lemma assign_bit_lt (m i : Nat) (b : Bool) (hm : m < 2 ^ 64) (hi : i < 64) :
    gpiod_line_mask_assign_bit m i b < 2 ^ 64 := by
  unfold gpiod_line_mask_assign_bit
  cases b with
  | true =>
    rw [if_pos rfl]
    exact Nat.or_lt_two_pow hm (Nat.pow_lt_pow_right (by omega) hi)
  | false =>
    rw [if_neg (by simp)]
    exact Nat.lt_of_le_of_lt Nat.and_le_left hm

lemma any_and_imp_any {α : Type} (l : List α) (f g : α → Bool)
    (h : l.any (fun x => f x && g x) = true) : l.any f = true := by
  simp only [List.any_eq_true] at h ⊢
  obtain ⟨x, hx, hfg⟩ := h
  rw [Bool.and_eq_true] at hfg
  exact ⟨x, hx, hfg.1⟩

/-- The output-values loop, characterised bit by bit: on lists whose
offsets all map into the request, it succeeds; the mask accumulates a bit
at each mapped index, and the value word holds the (normalised) caller
value at each mapped index. -/
lemma set_kernel_output_values_go_char (num_lines : Nat) (offsets : List Nat)
    (hnl : num_lines ≤ 64) :
    ∀ (l : List output_value) (mask vals : Nat),
    (∀ ov ∈ l, (find_bitmap_index ov.offset num_lines offsets).isSome) →
    List.Pairwise (fun a b => a.offset ≠ b.offset) l →
    mask < 2 ^ 64 → vals < 2 ^ 64 →
    ∃ M V, set_kernel_output_values_go num_lines offsets mask vals l =
        some (M, V) ∧
      M < 2 ^ 64 ∧ V < 2 ^ 64 ∧
      (∀ k, M.testBit k = (mask.testBit k ||
        l.any fun ov => find_bitmap_index ov.offset num_lines offsets ==
          some k)) ∧
      (∀ k, V.testBit k =
        (if (l.any fun ov => find_bitmap_index ov.offset num_lines offsets ==
            some k) = true then
          l.any fun ov =>
            (find_bitmap_index ov.offset num_lines offsets == some k) &&
              (ov.value != 0)
        else vals.testBit k)) := by
  intro l
  induction l with
  | nil =>
    intro mask vals _ _ hm hv
    exact ⟨mask, vals, rfl, hm, hv, fun k => by simp, fun k => by simp⟩
  | cons ov rest ih =>
    intro mask vals hall hdist hm hv
    have hov := hall ov (by simp)
    obtain ⟨idx, hidx⟩ := Option.isSome_iff_exists.mp hov
    have hidxlt : idx < 64 :=
      Nat.lt_of_lt_of_le (find_bitmap_index_lt _ _ _ _ hidx) hnl
    obtain ⟨M, V, hgo, hMlt, hVlt, hMchar, hVchar⟩ :=
      ih (gpiod_line_mask_set_bit mask idx)
        (gpiod_line_mask_assign_bit vals idx (ov.value != 0))
        (fun x hx => hall x (by simp [hx]))
        hdist.of_cons
        (set_bit_lt mask idx hm hidxlt)
        (assign_bit_lt vals idx _ hv hidxlt)
    refine ⟨M, V, ?_, hMlt, hVlt, fun k => ?_, fun k => ?_⟩
    · rw [set_kernel_output_values_go, hidx]
      exact hgo
    · -- mask characterisation
      rw [hMchar k, set_bit_testBit]
      simp only [List.any_cons, hidx]
      by_cases hik : idx = k
      · simp [hik]
      · have hb : (idx == k) = false := by simpa using hik
        simp [hik, hb]
    · -- value characterisation
      rw [hVchar k]
      simp only [List.any_cons, hidx]
      by_cases hrk : (rest.any fun x =>
          find_bitmap_index x.offset num_lines offsets == some k) = true
      · -- some entry of `rest` maps to `k`; `ov` cannot (distinct offsets)
        have hik : idx ≠ k := by
          intro hik
          simp only [List.any_eq_true] at hrk
          obtain ⟨x, hx, hfx⟩ := hrk
          rw [beq_iff_eq] at hfx
          have h1 := find_bitmap_index_getD _ _ _ _ hidx
          have h2 := find_bitmap_index_getD _ _ _ _ hfx
          have : ov.offset = x.offset := by rw [← h1, ← h2, hik]
          exact absurd this (List.rel_of_pairwise_cons hdist hx)
        rw [if_pos hrk, if_pos (by simp [hrk])]
        have : (some idx == some k) = false := by
          simp [Option.some.injEq]
          exact hik
        simp [this]
      · -- no entry of `rest` maps to `k`
        rw [if_neg hrk]
        by_cases hkbound : k < 64
        · rw [assign_bit_testBit vals idx k _ hidxlt hkbound]
          by_cases hik : idx = k
          · have hrkv : (rest.any fun x =>
                (find_bitmap_index x.offset num_lines offsets == some k) &&
                  (x.value != 0)) = false := by
              by_contra hc
              rw [Bool.not_eq_false] at hc
              exact absurd (any_and_imp_any _ _ _ hc) hrk
            simp [hik, hrkv]
          · have hsome : (some idx == some k) = false := by
              simp [Option.some.injEq]
              exact hik
            simp [hik, hsome, hrk]
        · -- k ≥ 64: every word in sight has the bit clear
          push_neg at hkbound
          have h1 : (gpiod_line_mask_assign_bit vals idx
              (ov.value != 0)).testBit k = false :=
            Nat.testBit_lt_two_pow
              (Nat.lt_of_lt_of_le (assign_bit_lt vals idx _ hv hidxlt)
                (Nat.pow_le_pow_right (by omega) hkbound))
          have h2 : vals.testBit k = false :=
            Nat.testBit_lt_two_pow
              (Nat.lt_of_lt_of_le hv (Nat.pow_le_pow_right (by omega) hkbound))
          have h3 : (some idx == some k) = false := by
            simp [Option.some.injEq]
            omega
          simp [h1, h2, h3, hrk]

/-- An output value whose offset does not map into the request makes the
loop fail with EINVAL. -/
lemma set_kernel_output_values_go_none (num_lines : Nat) (offsets : List Nat) :
    ∀ (l : List output_value) (mask vals : Nat),
    (∃ ov ∈ l, find_bitmap_index ov.offset num_lines offsets = none) →
    set_kernel_output_values_go num_lines offsets mask vals l = none := by
  intro l
  induction l with
  | nil => intro mask vals h; simp at h
  | cons ov rest ih =>
    intro mask vals h
    rw [set_kernel_output_values_go]
    cases hfind : find_bitmap_index ov.offset num_lines offsets with
    | none => rfl
    | some idx =>
      obtain ⟨x, hx, hnone⟩ := h
      rcases List.mem_cons.mp hx with hx | hx
      · rw [hx] at hnone
        rw [hnone] at hfind
        cases hfind
      · exact ih _ _ ⟨x, hx, hnone⟩

/-- Branch equation: the output stage with mapped output values. -/
lemma to_kernel_output_stage_some (config : gpiod_line_config)
    (cfgbuf : gpio_v2_line_config) (num_lines : Nat) (offsets : List Nat)
    (mv : Nat × Nat) (h0 : config.num_output_values ≠ 0)
    (h1 : ¬config.num_output_values > num_lines)
    (hm : set_kernel_output_values config num_lines offsets = some mv) :
    to_kernel_output_stage config cfgbuf num_lines offsets =
      (set_attr
        (set_attr cfgbuf 0
          fun a => { a with id := GPIO_V2_LINE_ATTR_ID_OUTPUT_VALUES })
        0 fun a => { a with value := mv.2, mask := mv.1 },
       .ok 1) := by
  unfold to_kernel_output_stage
  rw [if_pos h0, if_neg h1, hm]

/-- Branch equation: the output stage with an unmapped output value. -/
lemma to_kernel_output_stage_none (config : gpiod_line_config)
    (cfgbuf : gpio_v2_line_config) (num_lines : Nat) (offsets : List Nat)
    (h0 : config.num_output_values ≠ 0)
    (h1 : ¬config.num_output_values > num_lines)
    (hm : set_kernel_output_values config num_lines offsets = none) :
    to_kernel_output_stage config cfgbuf num_lines offsets =
      (set_attr cfgbuf 0
        fun a => { a with id := GPIO_V2_LINE_ATTR_ID_OUTPUT_VALUES },
       .error .einval) := by
  unfold to_kernel_output_stage
  rw [if_pos h0, if_neg h1, hm]

/-- After the output stage and every later stage, attribute slot 0 of the
buffer is still the output-values attribute written by the output stage.
This is the glue for C5: it holds on every further branch of the
compilation. -/
lemma compile_attr0_of_output (config : gpiod_line_config)
    (cfgbuf : gpio_v2_line_config) (num_lines : Nat) (offsets : List Nat)
    (mv : Nat × Nat) (htc : ¬config.too_complex = true)
    (h_attrs : cfgbuf.attrs.length = GPIO_V2_LINE_NUM_ATTRS_MAX)
    (h0 : config.num_output_values ≠ 0)
    (h1 : ¬config.num_output_values > num_lines)
    (hm : set_kernel_output_values config num_lines offsets = some mv) :
    (gpiod_line_config_to_kernel_some config cfgbuf num_lines
        offsets).2.1.attrs.getD 0 attr_zero =
      { (cfgbuf.attrs.getD 0 attr_zero) with
        id := GPIO_V2_LINE_ATTR_ID_OUTPUT_VALUES,
        value := mv.2, mask := mv.1 } := by
  have hstage := to_kernel_output_stage_some config cfgbuf num_lines offsets
    mv h0 h1 hm
  have hE1 : (to_kernel_output_stage config cfgbuf num_lines offsets).2 =
      .ok 1 := by rw [hstage]
  have hW1 : (to_kernel_output_stage config cfgbuf num_lines offsets).1 =
      set_attr
        (set_attr cfgbuf 0
          fun a => { a with id := GPIO_V2_LINE_ATTR_ID_OUTPUT_VALUES })
        0 fun a => { a with value := mv.2, mask := mv.1 } := by rw [hstage]
  have hattr0 : (to_kernel_output_stage config cfgbuf num_lines
      offsets).1.attrs.getD 0 attr_zero =
      { (cfgbuf.attrs.getD 0 attr_zero) with
        id := GPIO_V2_LINE_ATTR_ID_OUTPUT_VALUES,
        value := mv.2, mask := mv.1 } := by
    rw [hW1, set_attr_getD_self _ _ _ (by simp [set_attr]; rw [h_attrs]; decide),
      set_attr_getD_self _ _ _ (by rw [h_attrs]; decide)]
  have hdeb0 : (to_kernel_debounce_stage config
      (to_kernel_output_stage config cfgbuf num_lines offsets).1
      1).1.attrs.getD 0 attr_zero =
      (to_kernel_output_stage config cfgbuf num_lines
        offsets).1.attrs.getD 0 attr_zero :=
    to_kernel_debounce_stage_getD_lt _ _ _ _ (by decide)
  have hidx2 : 1 ≤ (to_kernel_debounce_stage config
      (to_kernel_output_stage config cfgbuf num_lines offsets).1 1).2 := by
    rw [to_kernel_debounce_stage_idx]
    split <;> omega
  have hloop0 : (to_kernel_secondaries num_lines offsets
      (config.secondary.take config.num_secondary)
      (to_kernel_debounce_stage config
        (to_kernel_output_stage config cfgbuf num_lines offsets).1 1).2
      (to_kernel_debounce_stage config
        (to_kernel_output_stage config cfgbuf num_lines offsets).1
        1).1).1.attrs.getD 0 attr_zero =
      (to_kernel_debounce_stage config
        (to_kernel_output_stage config cfgbuf num_lines offsets).1
        1).1.attrs.getD 0 attr_zero :=
    (to_kernel_secondaries_preserves num_lines offsets
      (config.secondary.take config.num_secondary) _ _).1 0
      (by omega)
  cases hE3 : (to_kernel_secondaries num_lines offsets
      (config.secondary.take config.num_secondary)
      (to_kernel_debounce_stage config
        (to_kernel_output_stage config cfgbuf num_lines offsets).1 1).2
      (to_kernel_debounce_stage config
        (to_kernel_output_stage config cfgbuf num_lines offsets).1 1).1).2
    with
  | error e =>
    rw [ctk_sec_err config cfgbuf num_lines offsets 1 e htc hE1 hE3,
      to_kernel_error_buf]
    rw [hloop0, hdeb0, hattr0]
  | ok attr_idx =>
    cases hE4 : gpiod_make_kernel_flags config.primary with
    | none =>
      rw [ctk_primary_flags_none config cfgbuf num_lines offsets 1 attr_idx
        htc hE1 hE3 hE4]
      have : ((.error .einval,
          (to_kernel_secondaries num_lines offsets
            (config.secondary.take config.num_secondary)
            (to_kernel_debounce_stage config
              (to_kernel_output_stage config cfgbuf num_lines offsets).1 1).2
            (to_kernel_debounce_stage config
              (to_kernel_output_stage config cfgbuf num_lines offsets).1
              1).1).1,
          config) :
          Except CErr Unit × gpio_v2_line_config × gpiod_line_config).2.1 =
          (to_kernel_secondaries num_lines offsets
            (config.secondary.take config.num_secondary)
            (to_kernel_debounce_stage config
              (to_kernel_output_stage config cfgbuf num_lines offsets).1 1).2
            (to_kernel_debounce_stage config
              (to_kernel_output_stage config cfgbuf num_lines offsets).1
              1).1).1 := rfl
      rw [this, hloop0, hdeb0, hattr0]
    | some flags =>
      rw [ctk_success config cfgbuf num_lines offsets 1 attr_idx flags htc
        hE1 hE3 hE4]
      have : ({ (to_kernel_secondaries num_lines offsets
            (config.secondary.take config.num_secondary)
            (to_kernel_debounce_stage config
              (to_kernel_output_stage config cfgbuf num_lines offsets).1 1).2
            (to_kernel_debounce_stage config
              (to_kernel_output_stage config cfgbuf num_lines offsets).1
              1).1).1 with
          flags := flags, num_attrs := attr_idx }).attrs =
          (to_kernel_secondaries num_lines offsets
            (config.secondary.take config.num_secondary)
            (to_kernel_debounce_stage config
              (to_kernel_output_stage config cfgbuf num_lines offsets).1 1).2
            (to_kernel_debounce_stage config
              (to_kernel_output_stage config cfgbuf num_lines offsets).1
              1).1).1.attrs := rfl
      show ({ (to_kernel_secondaries num_lines offsets
            (config.secondary.take config.num_secondary)
            (to_kernel_debounce_stage config
              (to_kernel_output_stage config cfgbuf num_lines offsets).1 1).2
            (to_kernel_debounce_stage config
              (to_kernel_output_stage config cfgbuf num_lines offsets).1
              1).1).1 with
          flags := flags, num_attrs := attr_idx }).attrs.getD 0 attr_zero = _
      rw [this, hloop0, hdeb0, hattr0]

/-- Claim C5 as amended: provided the config is not `too_complex` and the
stored output values (pairwise distinct by offset, as the setters
maintain) do not outnumber the requested lines, compilation writes an
output-values attribute at slot 0 whose mask has bit 1 exactly at position
`index_of(offset_i, O)` for each stored `offset_i` and whose value word
has a 1 at that position exactly when the caller value was non-zero; and
when some stored offset is absent from the offset list *and the output
values do not outnumber the lines*, compilation fails with EINVAL.  (The
extra proviso is forced: when the output values outnumber the requested
lines the E2BIG check preempts the EINVAL lookup.) -/
theorem C5_output_values_roundtrip (config : gpiod_line_config)
    (cfgbuf : gpio_v2_line_config) (num_lines : Nat) (offsets : List Nat)
    (h_attrs : cfgbuf.attrs.length = GPIO_V2_LINE_NUM_ATTRS_MAX)
    (htc : config.too_complex = false)
    (h0 : config.num_output_values ≠ 0)
    (hle : config.num_output_values ≤ num_lines)
    (hnl : num_lines ≤ GPIO_V2_LINES_MAX)
    (hdist : List.Pairwise (fun a b => a.offset ≠ b.offset)
      (config.output_values.take config.num_output_values)) :
    ((∀ ov ∈ config.output_values.take config.num_output_values,
        (find_bitmap_index ov.offset num_lines offsets).isSome) →
      ((gpiod_line_config_to_kernel_some config cfgbuf num_lines
          offsets).2.1.attrs.getD 0 attr_zero).id =
        GPIO_V2_LINE_ATTR_ID_OUTPUT_VALUES ∧
      (∀ k : Nat,
        ((gpiod_line_config_to_kernel_some config cfgbuf num_lines
            offsets).2.1.attrs.getD 0 attr_zero).mask.testBit k =
          ((config.output_values.take config.num_output_values).any
            fun ov => find_bitmap_index ov.offset num_lines offsets ==
              some k) ∧
        ((gpiod_line_config_to_kernel_some config cfgbuf num_lines
            offsets).2.1.attrs.getD 0 attr_zero).value.testBit k =
          ((config.output_values.take config.num_output_values).any
            fun ov =>
              (find_bitmap_index ov.offset num_lines offsets == some k) &&
                (ov.value != 0)))) ∧
    ((∃ ov ∈ config.output_values.take config.num_output_values,
        find_bitmap_index ov.offset num_lines offsets = none) →
      (gpiod_line_config_to_kernel_some config cfgbuf num_lines offsets).1 =
        .error .einval) := by
  have htc' : ¬config.too_complex = true := by rw [htc]; simp
  have h1 : ¬config.num_output_values > num_lines := by omega
  constructor
  · intro hall
    obtain ⟨M, V, hgo, hMlt, hVlt, hMchar, hVchar⟩ :=
      set_kernel_output_values_go_char num_lines offsets hnl
        (config.output_values.take config.num_output_values)
        gpiod_line_mask_zero gpiod_line_mask_zero hall hdist
        (by unfold gpiod_line_mask_zero; exact Nat.pos_pow_of_pos 64 (by omega))
        (by unfold gpiod_line_mask_zero; exact Nat.pos_pow_of_pos 64 (by omega))
    have hm : set_kernel_output_values config num_lines offsets =
        some (M, V) := by
      unfold set_kernel_output_values
      exact hgo
    have hattr0 := compile_attr0_of_output config cfgbuf num_lines offsets
      (M, V) htc' h_attrs h0 h1 hm
    rw [hattr0]
    refine ⟨rfl, fun k => ⟨?_, ?_⟩⟩
    · rw [hMchar k]
      simp [gpiod_line_mask_zero]
    · rw [hVchar k]
      by_cases hany : ((config.output_values.take
          config.num_output_values).any
          fun ov => find_bitmap_index ov.offset num_lines offsets == some k) =
          true
      · rw [if_pos hany]
      · rw [if_neg hany]
        have : ((config.output_values.take config.num_output_values).any
            fun ov =>
              (find_bitmap_index ov.offset num_lines offsets == some k) &&
                (ov.value != 0)) = false := by
          by_contra hc
          rw [Bool.not_eq_false] at hc
          exact absurd (any_and_imp_any _ _ _ hc) hany
        rw [this]
        simp [gpiod_line_mask_zero]
  · intro hexists
    have hm : set_kernel_output_values config num_lines offsets = none := by
      unfold set_kernel_output_values
      exact set_kernel_output_values_go_none num_lines offsets _ _ _ hexists
    have hstage := to_kernel_output_stage_none config cfgbuf num_lines offsets
      h0 h1 hm
    have hE1 : (to_kernel_output_stage config cfgbuf num_lines offsets).2 =
        .error .einval := by rw [hstage]
    rw [ctk_output_err config cfgbuf num_lines offsets .einval htc' hE1,
      to_kernel_error_fst]

/-- Claim C5 counterexample: offset 5 is absent from the offset list
`[0]`, so by the claim compilation must fail with EINVAL; but the stored
output values (2) outnumber the requested lines (1), and that E2BIG check
runs first: compilation fails with E2BIG, not EINVAL. -/
theorem C5_counterexample_e2big_preempts_einval :
    c5_config.num_output_values = 2 ∧
    find_bitmap_index 5 1 [0] = none ∧
    (gpiod_line_config_to_kernel_some c5_config cfgbuf_zero 1 [0]).1 =
      .error .e2big := by
  refine ⟨by decide, by decide, by decide⟩

/-- Witness for `C5_output_values_roundtrip` at a concrete config. -/
theorem C5_output_values_roundtrip_witness :
    ((gpiod_line_config_to_kernel_some c5_witness_config cfgbuf_zero 1
        [7]).2.1.attrs.getD 0 attr_zero).id =
      GPIO_V2_LINE_ATTR_ID_OUTPUT_VALUES ∧
    ((gpiod_line_config_to_kernel_some c5_witness_config cfgbuf_zero 1
        [7]).2.1.attrs.getD 0 attr_zero).mask.testBit 0 = true ∧
    ((gpiod_line_config_to_kernel_some c5_witness_config cfgbuf_zero 1
        [7]).2.1.attrs.getD 0 attr_zero).value.testBit 0 = true := by
  have h := (C5_output_values_roundtrip c5_witness_config cfgbuf_zero 1 [7]
    (by decide) (by decide) (by decide) (by decide) (by decide)
    (by decide)).1 (by decide)
  refine ⟨h.1, ?_, ?_⟩
  · rw [(h.2 0).1]
    decide
  · rw [(h.2 0).2]
    decide

end LibgpiodLineConfig
